import Mathlib

/-!
Verification development for the `rw-joint-calculator` repository.

The Python sources under `src/python_library/joint_calc/` are shallowly
embedded here: machine floats become real numbers, Python exceptions become
explicit error results (a `ValueError` / `ZeroDivisionError` / `IndexError`
raise is modelled as returning the error alongside the state reached when the
exception fires, since Python mutations made before a raise persist), and the
opaque Rhino geometry kernel is modelled as an abstract interface `Kernel`
whose operations are uninterpreted functions on an opaque solid type.
-/

namespace JointCalc

open Real

open scoped Classical

/-- `geometry.Vector`: a free vector with real coordinates. -/
structure Vector where
  x : ℝ
  y : ℝ
  z : ℝ

/-- `geometry.Point`: an affine position. -/
structure Point where
  x : ℝ
  y : ℝ
  z : ℝ

namespace Vector

/-- `Vector.__add__`. -/
instance : Add Vector := ⟨fun a b => ⟨a.x + b.x, a.y + b.y, a.z + b.z⟩⟩

/-- `Vector.__sub__`. -/
instance : Sub Vector := ⟨fun a b => ⟨a.x - b.x, a.y - b.y, a.z - b.z⟩⟩

/-- `Vector.__mul__` / `__rmul__` by a scalar. -/
instance : SMul ℝ Vector := ⟨fun r v => ⟨r * v.x, r * v.y, r * v.z⟩⟩

/-- `Vector.__truediv__` by a scalar (total model; call sites where the
Python division can raise `ZeroDivisionError` guard explicitly). -/
noncomputable instance : HDiv Vector ℝ Vector :=
  ⟨fun v r => ⟨v.x / r, v.y / r, v.z / r⟩⟩

instance : Zero Vector := ⟨⟨0, 0, 0⟩⟩

instance : Neg Vector := ⟨fun v => ⟨-v.x, -v.y, -v.z⟩⟩

/-- Squared euclidean norm (helper; `norm` is its square root). -/
def normSq (v : Vector) : ℝ := v.x ^ 2 + v.y ^ 2 + v.z ^ 2

/-- `Vector.norm`. -/
noncomputable def norm (v : Vector) : ℝ := Real.sqrt v.normSq

/-- `Vector.dot`. -/
def dot (a b : Vector) : ℝ := a.x * b.x + a.y * b.y + a.z * b.z

/-- `Vector.cross`. -/
def cross (a b : Vector) : Vector :=
  ⟨a.y * b.z - a.z * b.y, a.z * b.x - a.x * b.z, a.x * b.y - a.y * b.x⟩

/-- `Vector.compute_angle_with`: returns `0.0` when the product of the norms
is exactly zero, otherwise the arccosine of the cosine clamped to `[-1, 1]`. -/
noncomputable def computeAngleWith (a b : Vector) : ℝ :=
  let dp := a.x * b.x + a.y * b.y + a.z * b.z
  let norms := a.norm * b.norm
  if norms = 0 then 0
  else Real.arccos (max (-1) (min 1 (dp / norms)))

/-- `Vector.is_parallel_to`. -/
noncomputable def isParallelTo (a b : Vector) (tolerance : ℝ) : Prop :=
  |computeAngleWith a b| < tolerance ∨ |computeAngleWith a b - Real.pi| < tolerance

/-- `Vector.project_in_plane`: raises `ValueError` on a zero normal. -/
noncomputable def projectInPlane (v n : Vector) : Except String Vector :=
  if n.norm = 0 then .error "ValueError: Normal vector cannot be null."
  else
    let nu := n / n.norm
    .ok (v - nu.dot v • nu)

/-- `Vector.project_along`: raises `ValueError` on a zero direction. -/
noncomputable def projectAlong (v o : Vector) : Except String Vector :=
  if o.norm = 0 then .error "ValueError: Other vector cannot be null."
  else
    let ou := o / o.norm
    .ok (v.dot ou • ou)

/-- `Vector.normalized`: raises `ValueError` on the zero vector. -/
noncomputable def normalized (v : Vector) : Except String Vector :=
  if v.norm = 0 then .error "ValueError: Cannot normalize zero-length vector."
  else .ok (v / v.norm)

end Vector

namespace Point

/-- `Point.__sub__` on another point yields a vector. -/
instance : HSub Point Point Vector := ⟨fun a b => ⟨a.x - b.x, a.y - b.y, a.z - b.z⟩⟩

/-- `Point.__sub__` on a vector yields a point. -/
instance : HSub Point Vector Point := ⟨fun a v => ⟨a.x - v.x, a.y - v.y, a.z - v.z⟩⟩

/-- `Point.__add__` on a vector yields a point. -/
instance : HAdd Point Vector Point := ⟨fun a v => ⟨a.x + v.x, a.y + v.y, a.z + v.z⟩⟩

end Point

/-- `geometry.Plane` after `__post_init__`: origin, the two stored in-plane
axes and the derived z-axis. -/
structure Plane where
  origin : Point
  x_axis : Vector
  y_axis : Vector
  z_axis : Vector

namespace Plane

/-- `Plane.__init__` followed by `__post_init__`: normalizes both given axes
(raising `ZeroDivisionError` when either is zero, as the Python scalar
division does) and stores `z_axis = x_axis.cross(y_axis)`. -/
noncomputable def create (origin : Point) (x_axis y_axis : Vector) :
    Except String Plane :=
  if x_axis.norm = 0 ∨ y_axis.norm = 0 then .error "ZeroDivisionError"
  else
    let xa := x_axis / x_axis.norm
    let ya := y_axis / y_axis.norm
    .ok ⟨origin, xa, ya, xa.cross ya⟩

/-- `Plane.translate`: moves the origin by the given vector. -/
def translate (p : Plane) (t : Vector) : Plane :=
  { p with origin := p.origin + t }

end Plane

/-- Abstract interface to the Rhino geometry kernel, one field per kernel
operation the embedded code calls.  `S` is the opaque type of kernel objects
(breps and curves); the fixed model tolerance and the fixed parameter
intervals are absorbed into the interface. -/
structure Kernel (S : Type) where
  /-- `VolumeMassProperties.Compute(brep).Volume` (signed). -/
  volume : S → ℝ
  /-- `AreaMassProperties.Compute(brep).Area`. -/
  area : S → ℝ
  /-- `AreaMassProperties.Compute(brep).Centroid`. -/
  centroid : S → Point
  /-- `brep.GetWireframe(0)` edges as (start, end) point pairs. -/
  wireframe : S → List (Point × Point)
  /-- `brep.Edges` as (start, end) point pairs. -/
  edges : S → List (Point × Point)
  /-- `Polyline.CreateByJoiningLines(lines, TOL, False)` then
  `.ToPolylineCurve()` on each result. -/
  joinLines : List (Point × Point) → List S
  /-- `Surface.CreateExtrusion(curve, vec).ToBrep()`. -/
  extrude : S → Vector → S
  /-- `Brep.JoinBreps(breps, TOL)`. -/
  joinBreps : List S → List S
  /-- `brep.CapPlanarHoles(5 * TOL)`. -/
  capPlanarHoles : S → S
  /-- `brep.Faces.SplitKinkyFaces(TOL)`. -/
  splitKinkyFaces : S → S
  /-- `brep.MergeCoplanarFaces(TOL)`. -/
  mergeCoplanarFaces : S → S
  /-- `PlaneSurface(plane, interval, interval).ToBrep()`. -/
  planeSurface : Plane → S
  /-- `PlaneSurface(Plane(origin, normal), interval, interval).ToBrep()`. -/
  planeSurfaceFromNormal : Point → Vector → S
  /-- `brep.Split(cutter, TOL)`. -/
  split : S → S → List S
  /-- `Intersection.CurveBrep(Line(a, b).ToNurbsCurve(), brep, TOL)`
  intersection points. -/
  curveBrepPoints : Point → Point → S → List Point

/-- `stress_field.volume_lambda` / `utils.volume_lambda`: absolute volume. -/
def volumeLambda {S : Type} (K : Kernel S) (s : S) : ℝ := |K.volume s|

/-- `face.JointFace`: per-face state.  `stress_face_plane` is the private
`__stress_face_plane` working attribute. -/
structure Face (S : Type) where
  id : ℕ
  parent_joint_id : ℕ
  area : ℝ
  normal : Vector
  brep_surface : S
  resultant_location : Option Point := none
  stress_distribution : Option S := none
  max_stress : ℝ := 0
  main_axis : Option Vector := none
  stress_face_plane : Option Plane := none
  is_stressed : Bool := false

namespace Face

variable {S : Type} (K : Kernel S)

/-- `JointFace.set_stress_face_plane`. -/
def setStressFacePlane (f : Face S) (p : Plane) : Face S :=
  { f with stress_face_plane := some p }

/-- `JointFace.translate_stress_face_plane`: translates the stored cutting
plane when one exists, otherwise does nothing. -/
def translateStressFacePlane (f : Face S) (t : Vector) : Face S :=
  match f.stress_face_plane with
  | none => f
  | some p => { f with stress_face_plane := some (p.translate t) }

/-- The curve joined from the face boundary edges inside
`create_stress_distribution` (`CreateByJoiningLines(...)[0]`; `none` models
the `IndexError` of indexing an empty result). -/
def stressPrismCurve (f : Face S) : Option S :=
  (K.joinLines (K.edges f.brep_surface)).head?

/-- The capped, cleaned prism `total_brep` built by
`create_stress_distribution` before any splitting. -/
def stressPrismTotal (f : Face S) : Option S :=
  match stressPrismCurve K f with
  | none => none
  | some c =>
    let lower := K.extrude c ((-10 : ℝ) • f.normal)
    let upper := K.extrude c ((5 : ℝ) • f.normal)
    match (K.joinBreps [lower, upper]).head? with
    | none => none
    | some joined =>
      some (K.mergeCoplanarFaces (K.splitKinkyFaces (K.capPlanarHoles joined)))

/-- The capped fragments of the first split (by the stored cutting plane). -/
def firstSplitFrags (f : Face S) (pl : Plane) (total : S) : List S :=
  (K.split total (K.planeSurface pl)).map K.capPlanarHoles

/-- One step of the minimal-volume scan. -/
noncomputable def minByVolumeStep (acc : Option S) (s : S) : Option S :=
  match acc with
  | none => some s
  | some m => if volumeLambda K s < volumeLambda K m then some s else acc

/-- `sorted(breps, key=volume_lambda, reverse=False)[0]`: first element of
minimal absolute volume (Python's sort is stable, so ties keep the earlier
element); `none` models the `IndexError` on an empty list. -/
noncomputable def minByVolume (l : List S) : Option S :=
  l.foldl (minByVolumeStep K) none

/-- The capped fragments of the second split (by the face's own plane
through its centroid, along its normal). -/
def secondSplitCands (f : Face S) (s0 : S) : List S :=
  (K.split s0 (K.planeSurfaceFromNormal (K.centroid f.brep_surface) f.normal)).map
    K.capPlanarHoles

/-- `JointFace.create_stress_distribution`.  Returns the updated face and,
when the Python code would raise, the error alongside the state reached at
the raise. -/
noncomputable def createStressDistribution (f : Face S) :
    Face S × Option String :=
  match f.stress_face_plane with
  | none => (f, some "ValueError: no stress face plane defined")
  | some pl =>
    match stressPrismTotal K f with
    | none => (f, some "IndexError")
    | some total =>
      match minByVolume K (firstSplitFrags K f pl total) with
      | none => (f, some "IndexError")
      | some s0 =>
        match minByVolume K (secondSplitCands K f s0) with
        | none =>
          ({ f with is_stressed := false, stress_distribution := none,
                    resultant_location := none }, none)
        | some best =>
          let f1 := { f with is_stressed := true,
                             stress_distribution := some best }
          let cen := K.centroid best
          match K.curveBrepPoints cen (cen + f1.normal) f1.brep_surface with
          | [] => (f1, some "IndexError")
          | p :: _ => ({ f1 with resultant_location := some p }, none)

/-- The `max_edge` fold of `increase_stress_distribution`: longest wireframe
edge of the stress solid that is parallel (tolerance `0.1`) to the normal. -/
noncomputable def maxNormalEdge (normal : Vector) (sd : S) : Vector :=
  (K.wireframe sd).foldl
    (fun cur e =>
      let v := @HSub.hSub Point Point Vector _ e.1 e.2
      if Vector.isParallelTo v normal 0.1 ∧ cur.norm < v.norm then v else cur)
    0

/-- `JointFace.increase_stress_distribution`. -/
noncomputable def increaseStressDistribution (f : Face S)
    (additional_stress : ℝ) : Face S × Option String :=
  let f1 := { f with max_stress := f.max_stress + additional_stress }
  match f1.stress_distribution with
  | none => (f1, some "AttributeError")
  | some sd =>
    let maxEdge := maxNormalEdge K f1.normal sd
    if f1.max_stress = 0 then (f1, some "ZeroDivisionError")
    else
      let scale := maxEdge.norm / f1.max_stress
      let scaled := additional_stress * scale
      match Vector.normalized f1.normal with
      | .error e => (f1, some e)
      | .ok nu =>
        let translation := ((-1 : ℝ) * scaled) • nu
        createStressDistribution K (translateStressFacePlane f1 translation)

end Face

section StressField

variable {S : Type} (K : Kernel S)

/-- `volume_lambda(joint_face.stress_distribution)`: the Python call on a
`None` solid raises, so the missing case is only reached behind explicit
hypotheses or error paths. -/
noncomputable def faceStressVolume (f : Face S) : ℝ :=
  match f.stress_distribution with
  | some s => volumeLambda K s
  | none => 0

/-- `compute_stress_field` line `moment_weights = [x / total_volume for x in
stress_volumes]`, where `stress_volumes` collects each face's stress-solid
absolute volume. -/
noncomputable def momentWeights (faces : List (Face S)) : List ℝ :=
  let vs := faces.map (faceStressVolume K)
  vs.map (fun x => x / vs.sum)

/-- The sign-corrected cross-product contribution of one face to the raw
unit resisting moment (`compute_stress_field` first `for` loop). -/
noncomputable def signedCross (moment : Vector) (rotation_point : Point)
    (loc : Point) (f : Face S) : Vector :=
  let moment_arm := loc - rotation_point
  let total_unit_force := faceStressVolume K f
  let cp := moment_arm.cross (total_unit_force • f.normal)
  if cp.dot moment < 0 then (-1 : ℝ) • cp else cp

/-- The accumulation loop for `raw_unit_moment`; errors when a face has no
resultant location or no stress solid (the Python expressions
`resultant_location - rotation_point` and `volume_lambda(None)` raise). -/
noncomputable def rawUnitMomentAux (moment : Vector) (rotation_point : Point) :
    List (Face S) → Vector → Except String Vector
  | [], acc => .ok acc
  | f :: rest, acc =>
    match f.resultant_location, f.stress_distribution with
    | some loc, some _ =>
      rawUnitMomentAux moment rotation_point rest
        (acc + signedCross K moment rotation_point loc f)
    | _, _ => .error "TypeError"

/-- Lines 56-72 of `stress_field.py`: the net unit resisting moment and the
amplification factor; the divisions `moment / moment.norm()` and
`moment.norm() / unit_resisting_moment` raise on zero denominators. -/
noncomputable def momentAmplification (moment : Vector)
    (rotation_point : Point) (faces : List (Face S)) : Except String ℝ :=
  match rawUnitMomentAux K moment rotation_point faces 0 with
  | .error e => .error e
  | .ok raw =>
    if moment.norm = 0 then .error "ZeroDivisionError"
    else
      let unit_resisting_moment := raw.dot (moment / moment.norm)
      if unit_resisting_moment = 0 then .error "ZeroDivisionError"
      else .ok (moment.norm / unit_resisting_moment)

/-- The folded force angle used twice in `compute_stress_field` and twice in
the axial phase: `if angle > pi/2: angle = pi - angle`. -/
noncomputable def foldAngle (a : ℝ) : ℝ :=
  if a > Real.pi / 2 then Real.pi - a else a

/-- The second `for` loop of `compute_stress_field`: sets each face's
`max_stress` to `amplification_factor * unit_stresses[i]` and accumulates the
total tensile component; errors when a face has no stress solid. -/
noncomputable def amplifyLoop (moment : Vector) (amp : ℝ) :
    List (Face S) → List ℝ → List (Face S) → ℝ →
      (List (Face S) × ℝ) × Option String
  | [], _, done, tensile => ((done.reverse, tensile), none)
  | f :: rest, [], done, tensile =>
    ((done.reverse ++ f :: rest, tensile), some "IndexError")
  | f :: rest, u :: us, done, tensile =>
    match f.stress_distribution with
    | none => ((done.reverse ++ f :: rest, tensile), some "AttributeError")
    | some sd =>
      let f1 := { f with max_stress := amp * u }
      let force_angle := foldAngle (moment.computeAngleWith f.normal)
      let tensile_component := volumeLambda K sd * Real.cos force_angle * amp
      amplifyLoop moment amp rest us (f1 :: done) (tensile + tensile_component)

/-- `__compute_axial_stresses` force decomposition (lines 231-239): the two
components obtained from the sine rule. -/
noncomputable def axialComponents (a1 a2 axial_force : Vector) :
    Vector × Vector :=
  let main_axes_angle := a1.computeAngleWith a2
  let force_axis_angle := a1.computeAngleWith axial_force
  let c1 :=
    (axial_force.norm / Real.sin (Real.pi - main_axes_angle) *
      Real.sin (main_axes_angle - force_axis_angle)) • (a1 / a1.norm)
  (c1, axial_force - c1)

/-- The facing-face selection loop (lines 259-268): `j` ranges over
`range(1, len(faces))`, state `(facing_face_id, current_best_dot)` starts at
`(0, 0.0)` and is updated when `dot < current_best_dot`. -/
noncomputable def facingLoop (normals : List Vector) (uf : Vector) :
    List ℕ → ℕ × ℝ → ℕ × ℝ
  | [], st => st
  | j :: rest, (fid, best) =>
    let d := (normals.getD j 0).dot uf
    facingLoop normals uf rest (if d < best then (j, d) else (fid, best))

/-- `facing_face_id` after the selection loop, given the unit force. -/
noncomputable def facingFaceId (normals : List Vector) (uf : Vector) : ℕ :=
  (facingLoop normals uf (List.range' 1 (normals.length - 1)) (0, 0)).1

/-- The helping-face selection loop (lines 271-281): like the facing loop but
skipping `j == facing_face_id` and maximizing
`normals[facing_face_id].dot(normals[j])`. -/
noncomputable def helpingLoop (normals : List Vector) (fid : ℕ) :
    List ℕ → ℕ × ℝ → ℕ × ℝ
  | [], st => st
  | j :: rest, (hid, best) =>
    if j = fid then helpingLoop normals fid rest (hid, best)
    else
      let d := (normals.getD fid 0).dot (normals.getD j 0)
      helpingLoop normals fid rest (if best < d then (j, d) else (hid, best))

/-- `helping_face_id` after its selection loop. -/
noncomputable def helpingFaceId (normals : List Vector) (fid : ℕ) : ℕ :=
  (helpingLoop normals fid (List.range' 1 (normals.length - 1)) (0, 0)).1

/-- Negation of every face normal (`face.normal = -1 * face.normal`), the
temporary trick applied for the second axial component. -/
def negateNormals (faces : List (Face S)) : List (Face S) :=
  faces.map (fun f => { f with normal := (-1 : ℝ) • f.normal })

/-- Lines 332-359 of `__compute_axial_stresses`: reverse the temporary
negation, project the three unit resultants along the force, scale them so
they counteract the exerted force, convert to unit stresses, and superpose
those on the facing and helping faces.  `facingUR`, `screwUR` and
`helpingUR` are the unit resultants computed in lines 321-330. -/
noncomputable def axialApply (force : Vector) (negate : Bool)
    (facing helping : ℕ) (f0 : Face S)
    (facingUR screwUR helpingUR : Vector) (faces1 : List (Face S)) :
    List (Face S) × Option String :=
  let faces2 := if negate then negateNormals faces1 else faces1
  match Vector.projectAlong facingUR force with
  | .error e => (faces2, some e)
  | .ok paF =>
    match Vector.projectAlong helpingUR force with
    | .error e => (faces2, some e)
    | .ok paH =>
      match Vector.projectAlong screwUR force with
      | .error e => (faces2, some e)
      | .ok paS =>
        let rur := paF + paH + paS
        if rur.norm = 0 then (faces2, some "ZeroDivisionError")
        else
          let sf := force.norm / rur.norm
          let fFace2 := faces2.getD facing f0
          let hFace2 := faces2.getD helping f0
          if fFace2.area = 0 then (faces2, some "ZeroDivisionError")
          else if hFace2.area = 0 then (faces2, some "ZeroDivisionError")
          else
            let sigmaF := (sf • facingUR).norm / fFace2.area
            let sigmaH := (sf • helpingUR).norm / hFace2.area
            let r1 := Face.increaseStressDistribution K fFace2 sigmaF
            let faces3 := faces2.set facing r1.1
            match r1.2 with
            | some e => (faces3, some e)
            | none =>
              let hFace3 := faces3.getD helping f0
              let r2 := Face.increaseStressDistribution K hFace3 sigmaH
              let faces4 := faces3.set helping r2.1
              (faces4, r2.2)

/-- The body of one iteration of the `for i in range(len(projected_forces))`
loop of `__compute_axial_stresses` (lines 259-359), run on the face list
`faces1` as it stands after the line 256-258 negation; `negate` is `i == 1`.
Returns the face list as left by the iteration together with the error when
the Python code would raise there (mutations made before a raise persist,
including the temporary normal negation when the raise happens before it is
reversed). -/
noncomputable def axialIterFrom (screw : Vector) (force : Vector)
    (negate : Bool) (faces1 : List (Face S)) : List (Face S) × Option String :=
  if 2 ≤ faces1.length ∧ force.norm = 0 then (faces1, some "ZeroDivisionError")
  else
    let uf := force / force.norm
    let normals := faces1.map (fun f => f.normal)
    let facing := facingFaceId normals uf
    let helping := helpingFaceId normals facing
    match Vector.projectInPlane screw force with
    | .error e => (faces1, some e)
    | .ok pScrew =>
      match faces1 with
      | [] => (faces1, some "IndexError")
      | f0 :: _ =>
        let fFace := faces1.getD facing f0
        let hFace := faces1.getD helping f0
        match Vector.projectInPlane fFace.normal force with
        | .error e => (faces1, some e)
        | .ok pFacing =>
          match Vector.projectInPlane hFace.normal force with
          | .error e => (faces1, some e)
          | .ok pHelping =>
            if screw.norm = 0 then (faces1, some "ZeroDivisionError")
            else if fFace.normal.norm = 0 then (faces1, some "ZeroDivisionError")
            else if hFace.normal.norm = 0 then (faces1, some "ZeroDivisionError")
            else
              let spf := pScrew.norm / screw.norm
              let fpf := pFacing.norm / fFace.normal.norm
              let hpf := pHelping.norm / hFace.normal.norm
              let aF := foldAngle (pScrew.computeAngleWith pFacing)
              let aH := foldAngle (pScrew.computeAngleWith pHelping)
              if Real.sin aF = 0 then (faces1, some "ZeroDivisionError")
              else
                let psc := Real.sin (Real.pi - aH - aF) / Real.sin aF
                let pfc := Real.sin aH / Real.sin aF
                if fpf = 0 then (faces1, some "ZeroDivisionError")
                else if spf = 0 then (faces1, some "ZeroDivisionError")
                else if hpf = 0 then (faces1, some "ZeroDivisionError")
                else
                  axialApply K force negate facing helping f0
                    ((pfc / fpf) • fFace.normal) ((psc / spf) • screw)
                    (((-1 : ℝ) / hpf) • hFace.normal) faces1

/-- One full iteration of the axial loop (lines 254-359): the temporary
negation of every normal when `negate` (line 256-258), then the iteration
body. -/
noncomputable def axialIter (screw : Vector) (force : Vector) (negate : Bool)
    (faces : List (Face S)) : List (Face S) × Option String :=
  axialIterFrom K screw force negate
    (if negate then negateNormals faces else faces)

/-- `StressFieldComputer.__compute_axial_stresses` (lines 221-359): the main-axes
count check, force decomposition, the re-sum assertion, the 50x ratio test
dropping a negligible component, and the per-component iterations. -/
noncomputable def computeAxialStresses (screw axial_force : Vector)
    (main_axes : List Vector) (faces : List (Face S)) :
    List (Face S) × Option String :=
  if main_axes.length ≠ 2 then
    (faces, some "ValueError: Joint must have exactly two main axes")
  else
    let a1 := main_axes.getD 0 0
    let a2 := main_axes.getD 1 0
    let main_axes_angle := a1.computeAngleWith a2
    if Real.sin (Real.pi - main_axes_angle) = 0 then
      (faces, some "ZeroDivisionError")
    else if a1.norm = 0 then (faces, some "ZeroDivisionError")
    else
      let c := axialComponents a1 a2 axial_force
      if ¬ ((c.1 + c.2 - axial_force).norm < (1e-6 : ℝ)) then
        (faces, some "AssertionError: Force decomposition failed")
      else if c.2.norm = 0 then (faces, some "ZeroDivisionError")
      else if c.1.norm / c.2.norm > 50 then axialIter K screw c.1 false faces
      else if c.1.norm = 0 then (faces, some "ZeroDivisionError")
      else if c.2.norm / c.1.norm > 50 then axialIter K screw c.2 false faces
      else
        match axialIter K screw c.1 false faces with
        | (faces1, some e) => (faces1, some e)
        | (faces1, none) => axialIter K screw c.2 true faces1

/-- `compute_stress_field` from the point where every face has its unscaled
stress solid (line 56) to the end: the amplification division, the
`max_stress` / tensile loop, the halving of the tensile component, and the
axial phase.  Output: faces, `total_tensile_component`, and the error when
the Python code would raise. -/
noncomputable def computeStressFieldStage2 (moment : Vector)
    (rotation_point : Point) (screw axial_force : Vector)
    (main_axes : List Vector) (unit_stresses : List ℝ)
    (faces : List (Face S)) : (List (Face S) × ℝ) × Option String :=
  match momentAmplification K moment rotation_point faces with
  | .error e => ((faces, 0), some e)
  | .ok amp =>
    match amplifyLoop K moment amp faces unit_stresses [] 0 with
    | ((faces1, tensile), some e) => ((faces1, tensile), some e)
    | ((faces1, tensile), none) =>
      let total := tensile / 2
      match computeAxialStresses K screw axial_force main_axes faces1 with
      | (faces2, e) => ((faces2, total), e)

end StressField

/-! ### Concrete instantiations used to evaluate the embedding -/

/-- A kernel over trivial solids: every solid has absolute volume `2`, no
intersections, no fragments.  Used to evaluate stages whose geometry calls
do not matter for the property at hand. -/
def KUnit : Kernel Unit where
  volume := fun _ => 2
  area := fun _ => 1
  centroid := fun _ => ⟨0, 0, 0⟩
  wireframe := fun _ => []
  edges := fun _ => []
  joinLines := fun _ => []
  extrude := fun _ _ => ()
  joinBreps := fun _ => []
  capPlanarHoles := fun s => s
  splitKinkyFaces := fun s => s
  mergeCoplanarFaces := fun s => s
  planeSurface := fun _ => ()
  planeSurfaceFromNormal := fun _ _ => ()
  split := fun _ _ => []
  curveBrepPoints := fun _ _ _ => []

/-- A kernel over `ℕ`-labelled solids in which the prism pipeline succeeds,
the first split (by the stored cutting plane, labelled `1`) yields one
fragment and the second split (by the face plane, labelled `2`) yields no
fragment. -/
def KNat4 : Kernel ℕ where
  volume := fun _ => 0
  area := fun _ => 1
  centroid := fun _ => ⟨0, 0, 0⟩
  wireframe := fun _ => []
  edges := fun _ => []
  joinLines := fun _ => [0]
  extrude := fun _ _ => 0
  joinBreps := fun _ => [0]
  capPlanarHoles := fun s => s
  splitKinkyFaces := fun s => s
  mergeCoplanarFaces := fun s => s
  planeSurface := fun _ => 1
  planeSurfaceFromNormal := fun _ _ => 2
  split := fun _ sp => if sp = 1 then [7] else []
  curveBrepPoints := fun _ _ _ => []

/-- A kernel over `ℕ`-labelled solids in which every split yields exactly one
fragment and the resultant intersection always hits, so rebuilding a stress
distribution always succeeds. -/
def KNat8 : Kernel ℕ where
  volume := fun _ => 0
  area := fun _ => 1
  centroid := fun _ => ⟨0, 0, 0⟩
  wireframe := fun _ => []
  edges := fun _ => []
  joinLines := fun _ => [0]
  extrude := fun _ _ => 0
  joinBreps := fun _ => [0]
  capPlanarHoles := fun s => s
  splitKinkyFaces := fun s => s
  mergeCoplanarFaces := fun s => s
  planeSurface := fun _ => 1
  planeSurfaceFromNormal := fun _ _ => 2
  split := fun _ _ => [5]
  curveBrepPoints := fun _ _ _ => [⟨0, 0, 0⟩]

/-- A concrete stored cutting plane. -/
def PL0 : Plane := ⟨⟨0, 0, 0⟩, ⟨1, 0, 0⟩, ⟨0, 1, 0⟩, ⟨0, 0, 1⟩⟩

/-- Concrete face used to evaluate `create_stress_distribution`. -/
def faceC4 : Face ℕ :=
  { id := 0, parent_joint_id := 0, area := 1, normal := ⟨0, 0, 1⟩,
    brep_surface := 0, stress_face_plane := some PL0 }

/-- Concrete face used to evaluate the moment-amplification stage. -/
def faceC3 : Face Unit :=
  { id := 0, parent_joint_id := 0, area := 1, normal := ⟨1, 0, 0⟩,
    brep_surface := (), resultant_location := some ⟨1, 0, 0⟩,
    stress_distribution := some () }

/-- Two concrete faces carrying stress solids, for the moment-weight stage. -/
def faceC1a : Face Unit :=
  { id := 0, parent_joint_id := 0, area := 1, normal := ⟨0, 0, 1⟩,
    brep_surface := (), stress_distribution := some () }

/-- See `faceC1a`. -/
def faceC1b : Face Unit :=
  { id := 1, parent_joint_id := 0, area := 1, normal := ⟨0, 0, 1⟩,
    brep_surface := (), stress_distribution := some () }

/-- First concrete face of the two-face joint used to evaluate a complete
run of the axial phase. -/
noncomputable def wf0 : Face ℕ :=
  { id := 0, parent_joint_id := 0, area := 1, normal := ⟨0, 3 / 5, 4 / 5⟩,
    brep_surface := 0, stress_distribution := some 9, max_stress := 1,
    stress_face_plane := some PL0 }

/-- Second concrete face of that joint. -/
noncomputable def wf1 : Face ℕ :=
  { id := 1, parent_joint_id := 0, area := 1, normal := ⟨-(4 / 5), 3 / 5, 0⟩,
    brep_surface := 0, stress_distribution := some 9, max_stress := 1,
    stress_face_plane := some PL0 }

/-- `wf0` as left by the first axial iteration. -/
noncomputable def wf0M : Face ℕ :=
  { id := 0, parent_joint_id := 0, area := 1, normal := ⟨0, 3 / 5, 4 / 5⟩,
    brep_surface := 0, resultant_location := some ⟨0, 0, 0⟩,
    stress_distribution := some 5, max_stress := 19 / 4,
    stress_face_plane := some PL0, is_stressed := true }

/-- `wf1` as left by the first axial iteration (and, up to the added zero
stress, by the second). -/
noncomputable def wf1M : Face ℕ :=
  { id := 1, parent_joint_id := 0, area := 1, normal := ⟨-(4 / 5), 3 / 5, 0⟩,
    brep_surface := 0, resultant_location := some ⟨0, 0, 0⟩,
    stress_distribution := some 5, max_stress := 19 / 4,
    stress_face_plane := some PL0, is_stressed := true }

/-- `wf0M` with its normal negated (the temporary state during the second
axial iteration). -/
noncomputable def wf0Mn : Face ℕ :=
  { id := 0, parent_joint_id := 0, area := 1, normal := ⟨0, -(3 / 5), -(4 / 5)⟩,
    brep_surface := 0, resultant_location := some ⟨0, 0, 0⟩,
    stress_distribution := some 5, max_stress := 19 / 4,
    stress_face_plane := some PL0, is_stressed := true }

/-- `wf1M` with its normal negated. -/
noncomputable def wf1Mn : Face ℕ :=
  { id := 1, parent_joint_id := 0, area := 1, normal := ⟨4 / 5, -(3 / 5), 0⟩,
    brep_surface := 0, resultant_location := some ⟨0, 0, 0⟩,
    stress_distribution := some 5, max_stress := 19 / 4,
    stress_face_plane := some PL0, is_stressed := true }

/-- `wf0` as left by the second axial iteration. -/
noncomputable def wf0F : Face ℕ :=
  { id := 0, parent_joint_id := 0, area := 1, normal := ⟨0, 3 / 5, 4 / 5⟩,
    brep_surface := 0, resultant_location := some ⟨0, 0, 0⟩,
    stress_distribution := some 5, max_stress := 137 / 12,
    stress_face_plane := some PL0, is_stressed := true }

/-! ### Basic lemmas about the geometry primitives -/

namespace Vector

@[simp] lemma add_def (a b : Vector) :
    a + b = ⟨a.x + b.x, a.y + b.y, a.z + b.z⟩ := rfl

@[simp] lemma sub_def (a b : Vector) :
    a - b = ⟨a.x - b.x, a.y - b.y, a.z - b.z⟩ := rfl

@[simp] lemma smul_def (r : ℝ) (v : Vector) :
    r • v = ⟨r * v.x, r * v.y, r * v.z⟩ := rfl

@[simp] lemma div_def (v : Vector) (r : ℝ) :
    v / r = (⟨v.x / r, v.y / r, v.z / r⟩ : Vector) := rfl

@[simp] lemma neg_def (v : Vector) : -v = ⟨-v.x, -v.y, -v.z⟩ := rfl

@[simp] lemma zero_def : (0 : Vector) = ⟨0, 0, 0⟩ := rfl

@[simp] lemma dot_def (a b : Vector) :
    a.dot b = a.x * b.x + a.y * b.y + a.z * b.z := rfl

lemma normSq_nonneg (v : Vector) : 0 ≤ v.normSq := by
  unfold normSq; positivity

lemma norm_nonneg' (v : Vector) : 0 ≤ v.norm := Real.sqrt_nonneg _

lemma norm_eq_zero_iff (v : Vector) : v.norm = 0 ↔ v.normSq = 0 := by
  unfold norm
  constructor
  · intro h
    have h' : v.normSq ≤ 0 := Real.sqrt_eq_zero'.mp h
    exact le_antisymm h' (normSq_nonneg v)
  · intro h; rw [h, Real.sqrt_zero]

@[simp] lemma norm_zero : (0 : Vector).norm = 0 := by
  rw [norm_eq_zero_iff, zero_def]; simp [normSq]

lemma norm_sq_eq_normSq (v : Vector) : v.norm ^ 2 = v.normSq :=
  Real.sq_sqrt (normSq_nonneg v)

lemma normSq_smul (r : ℝ) (v : Vector) :
    (r • v).normSq = r ^ 2 * v.normSq := by
  simp only [smul_def, normSq]; ring

lemma norm_smul' (r : ℝ) (v : Vector) : (r • v).norm = |r| * v.norm := by
  unfold norm
  rw [normSq_smul, Real.sqrt_mul (sq_nonneg r), Real.sqrt_sq_eq_abs]

lemma normSq_div (v : Vector) (r : ℝ) : (v / r).normSq = v.normSq / r ^ 2 := by
  simp only [div_def, normSq]; ring

lemma norm_div' (v : Vector) (r : ℝ) (hr : 0 ≤ r) :
    (v / r).norm = v.norm / r := by
  unfold norm
  rw [normSq_div, Real.sqrt_div' v.normSq (sq_nonneg r), Real.sqrt_sq hr]

lemma dot_self (v : Vector) : v.dot v = v.normSq := by
  simp only [dot, normSq]; ring

/-- The Lagrange identity for the cross product. -/
lemma normSq_cross (a b : Vector) :
    (a.cross b).normSq = a.normSq * b.normSq - (a.dot b) ^ 2 := by
  simp only [cross, dot, normSq]; ring

/-- Normalizing a vector of nonzero norm yields a vector of norm one. -/
lemma norm_normalize (v : Vector) (h : v.norm ≠ 0) : (v / v.norm).norm = 1 := by
  rw [norm_div' v v.norm (norm_nonneg' v), div_self h]

lemma dot_smul_right (a : Vector) (c : ℝ) (v : Vector) :
    a.dot (c • v) = c * a.dot v := by
  simp only [dot, smul_def]; ring

lemma dot_div_right (a v : Vector) (r : ℝ) :
    a.dot (v / r) = a.dot v / r := by
  simp only [dot, div_def]; ring

lemma neg_one_smul_neg_one_smul (v : Vector) :
    (-1 : ℝ) • ((-1 : ℝ) • v) = v := by
  simp only [smul_def]
  cases v with
  | mk x y z => norm_num

end Vector

@[simp] lemma Point.sub_point_def (a b : Point) :
    a - b = (⟨a.x - b.x, a.y - b.y, a.z - b.z⟩ : Vector) := rfl

@[simp] lemma Point.add_vector_def (a : Point) (v : Vector) :
    a + v = (⟨a.x + v.x, a.y + v.y, a.z + v.z⟩ : Point) := rfl

/-- Distributing a division over a list sum. -/
lemma sum_map_div (vs : List ℝ) (s : ℝ) :
    (vs.map (fun x => x / s)).sum = vs.sum / s := by
  induction vs with
  | nil => simp
  | cons v rest ih => simp [ih, add_div]

lemma norm_e1 : (⟨1, 0, 0⟩ : Vector).norm = 1 := by
  rw [show ((⟨1, 0, 0⟩ : Vector)).norm = Real.sqrt (1 ^ 2 + 0 ^ 2 + 0 ^ 2) from rfl]
  norm_num

lemma angle_e1_e2 :
    Vector.computeAngleWith ⟨1, 0, 0⟩ ⟨0, 1, 0⟩ = Real.pi / 2 := by
  have h2 : (⟨0, 1, 0⟩ : Vector).norm = 1 := by
    rw [show ((⟨0, 1, 0⟩ : Vector)).norm = Real.sqrt (0 ^ 2 + 1 ^ 2 + 0 ^ 2) from rfl]
    norm_num
  simp only [Vector.computeAngleWith, norm_e1, h2]
  norm_num [Real.arccos_zero]

lemma sin_pi_sub_angle_e1_e2 :
    Real.sin (Real.pi - Vector.computeAngleWith ⟨1, 0, 0⟩ ⟨0, 1, 0⟩) = 1 := by
  rw [angle_e1_e2, show Real.pi - Real.pi / 2 = Real.pi / 2 by ring,
    Real.sin_pi_div_two]

/-- Invariant of the facing-face selection loop: the tracked best dot only
decreases, stays below every candidate processed, and the tracked index is a
valid candidate achieving it whenever the best dot is negative, while a best
dot of zero means the index still holds its default `0`. -/
lemma facingLoop_spec (normals : List Vector) (uf : Vector) :
    ∀ (L : List ℕ) (fid : ℕ) (best : ℝ),
      best ≤ 0 →
      (best < 0 → 1 ≤ fid ∧ fid < normals.length ∧
        (normals.getD fid 0).dot uf = best) →
      (best = 0 → fid = 0) →
      (∀ j ∈ L, 1 ≤ j ∧ j < normals.length) →
      (facingLoop normals uf L (fid, best)).2 ≤ best ∧
      (∀ j ∈ L, (facingLoop normals uf L (fid, best)).2 ≤
        (normals.getD j 0).dot uf) ∧
      ((facingLoop normals uf L (fid, best)).2 < 0 →
        1 ≤ (facingLoop normals uf L (fid, best)).1 ∧
        (facingLoop normals uf L (fid, best)).1 < normals.length ∧
        (normals.getD (facingLoop normals uf L (fid, best)).1 0).dot uf =
          (facingLoop normals uf L (fid, best)).2) ∧
      ((facingLoop normals uf L (fid, best)).2 = 0 →
        (facingLoop normals uf L (fid, best)).1 = 0) := by
  intro L
  induction L with
  | nil =>
    intro fid best h0 hneg hz hL
    simp only [facingLoop]
    refine ⟨le_rfl, ?_, hneg, hz⟩
    intro j hj
    exact absurd hj (List.not_mem_nil j)
  | cons j rest ih =>
    intro fid best h0 hneg hz hL
    have hjb := hL j (List.mem_cons_self j rest)
    have hLrest : ∀ k ∈ rest, 1 ≤ k ∧ k < normals.length :=
      fun k hk => hL k (List.mem_cons_of_mem j hk)
    simp only [facingLoop]
    by_cases hlt : (normals.getD j 0).dot uf < best
    · rw [if_pos hlt]
      have h0' : (normals.getD j 0).dot uf ≤ 0 := le_of_lt (lt_of_lt_of_le hlt h0)
      have hneg' : (normals.getD j 0).dot uf < 0 →
          1 ≤ j ∧ j < normals.length ∧
          (normals.getD j 0).dot uf = (normals.getD j 0).dot uf :=
        fun _ => ⟨hjb.1, hjb.2, rfl⟩
      have hz' : (normals.getD j 0).dot uf = 0 → j = 0 := by
        intro hd0
        rw [hd0] at hlt
        exact absurd (lt_of_lt_of_le hlt h0) (lt_irrefl 0)
      have hrec := ih j ((normals.getD j 0).dot uf) h0' hneg' hz' hLrest
      refine ⟨le_trans hrec.1 (le_of_lt hlt), ?_, hrec.2.2.1, hrec.2.2.2⟩
      intro k hk
      rcases List.mem_cons.mp hk with rfl | hk
      · exact hrec.1
      · exact hrec.2.1 k hk
    · rw [if_neg hlt]
      have hrec := ih fid best h0 hneg hz hLrest
      refine ⟨hrec.1, ?_, hrec.2.2.1, hrec.2.2.2⟩
      intro k hk
      rcases List.mem_cons.mp hk with rfl | hk
      · exact le_trans hrec.1 (le_of_not_lt hlt)
      · exact hrec.2.1 k hk

/-- Folding the minimal-volume scan from a `some` state stays `some`. -/
lemma minByVolume_foldl_some {S : Type} (K : Kernel S) (l : List S) :
    ∀ m : S, ∃ m', l.foldl (Face.minByVolumeStep K) (some m) = some m' := by
  induction l with
  | nil => intro m; exact ⟨m, rfl⟩
  | cons a t ih =>
    intro m
    show ∃ m', t.foldl (Face.minByVolumeStep K)
      (Face.minByVolumeStep K (some m) a) = some m'
    have hstep : Face.minByVolumeStep K (some m) a =
        if volumeLambda K a < volumeLambda K m then some a else some m := rfl
    rw [hstep]
    by_cases h : volumeLambda K a < volumeLambda K m
    · rw [if_pos h]; exact ih a
    · rw [if_neg h]; exact ih m

/-- The minimal-volume selection succeeds exactly on nonempty fragment
lists. -/
lemma minByVolume_ne_nil {S : Type} (K : Kernel S) (l : List S)
    (h : l ≠ []) : ∃ m, Face.minByVolume K l = some m := by
  cases l with
  | nil => exact absurd rfl h
  | cons a t =>
    show ∃ m, t.foldl (Face.minByVolumeStep K)
      (Face.minByVolumeStep K none a) = some m
    exact minByVolume_foldl_some K t a

/-- With the axial force an exact multiple of the first main axis, the
sine-rule first component equals the force itself, the second component is
exactly zero, and the axial phase raises `ZeroDivisionError` at the
`component_1.norm() / component_2.norm()` ratio test instead of dropping the
negligible component. -/
lemma axial_parallel_force_divzero_aux {S : Type} (K : Kernel S)
    (screw : Vector) (a1 a2 F : Vector) (faces : List (Face S)) (c : ℝ)
    (hc : c ≠ 0) (ha1 : a1.norm ≠ 0)
    (hsin : Real.sin (Real.pi - a1.computeAngleWith a2) ≠ 0)
    (hF : F = c • (a1 / a1.norm)) :
    (axialComponents a1 a2 F).2 = 0 ∧
    computeAxialStresses K screw F [a1, a2] faces =
      (faces, some "ZeroDivisionError") := by
  have hsina : Real.sin (a1.computeAngleWith a2) ≠ 0 := by
    rwa [Real.sin_pi_sub] at hsin
  have habs : |c| ≠ 0 := abs_ne_zero.mpr hc
  have hFnorm : F.norm = |c| := by
    rw [hF, Vector.norm_smul', Vector.norm_normalize a1 ha1, mul_one]
  have hdp : a1.dot F = c * a1.norm := by
    rw [hF, Vector.dot_smul_right, Vector.dot_div_right, Vector.dot_self,
      ← Vector.norm_sq_eq_normSq]
    field_simp
    ring
  have hnz : a1.norm * F.norm ≠ 0 := by
    rw [hFnorm]; exact mul_ne_zero ha1 habs
  have hval : a1.dot F / (a1.norm * F.norm) = c / |c| := by
    rw [hdp, hFnorm]
    field_simp
    ring
  have htheta : a1.computeAngleWith F = if 0 < c then 0 else Real.pi := by
    simp only [Vector.computeAngleWith]
    rw [if_neg hnz,
      show a1.x * F.x + a1.y * F.y + a1.z * F.z = a1.dot F from rfl]
    rcases lt_trichotomy c 0 with hneg | hzero | hpos
    · rw [if_neg (not_lt.mpr (le_of_lt hneg))]
      have hm1 : a1.dot F / (a1.norm * F.norm) = -1 := by
        rw [hval, abs_of_neg hneg]
        field_simp
      rw [hm1, min_eq_right (by norm_num), max_self, Real.arccos_neg_one]
    · exact absurd hzero hc
    · rw [if_pos hpos]
      have h1 : a1.dot F / (a1.norm * F.norm) = 1 := by
        rw [hval, abs_of_pos hpos, div_self hc]
      rw [h1, min_self, max_eq_right (by norm_num), Real.arccos_one]
  have hc1 : (axialComponents a1 a2 F).1 = F := by
    simp only [axialComponents]
    rw [htheta]
    rcases lt_or_gt_of_ne hc with hneg | hpos
    · rw [if_neg (not_lt.mpr (le_of_lt hneg)), Real.sin_sub_pi,
        Real.sin_pi_sub, hFnorm, abs_of_neg hneg, hF]
      congr 1
      field_simp
    · rw [if_pos hpos, sub_zero, Real.sin_pi_sub, hFnorm, abs_of_pos hpos, hF]
      congr 1
      field_simp
  have hc2 : (axialComponents a1 a2 F).2 = 0 := by
    have hdef : (axialComponents a1 a2 F).2 = F - (axialComponents a1 a2 F).1 :=
      rfl
    rw [hdef, hc1]
    simp
  refine ⟨hc2, ?_⟩
  simp only [computeAxialStresses]
  rw [if_neg (by norm_num)]
  simp only [List.getD_cons_zero, List.getD_cons_succ]
  rw [if_neg hsin, if_neg ha1, hc1, hc2]
  have hz : F + (0 : Vector) - F = 0 := by simp
  rw [hz, Vector.norm_zero,
    if_neg (by norm_num : ¬¬((0 : ℝ) < 1e-6)),
    if_pos (rfl : (0 : ℝ) = 0)]

/-- Translating the stored cutting plane leaves the normal unchanged. -/
lemma translateStressFacePlane_normal {S : Type} (f : Face S) (t : Vector) :
    (Face.translateStressFacePlane f t).normal = f.normal := by
  unfold Face.translateStressFacePlane
  rcases f.stress_face_plane with _ | pl <;> rfl

/-- Rebuilding the stress distribution leaves the normal unchanged. -/
lemma createStressDistribution_normal {S : Type} (K : Kernel S)
    (f : Face S) : (Face.createStressDistribution K f).1.normal = f.normal := by
  unfold Face.createStressDistribution
  rcases hpl : f.stress_face_plane with _ | pl
  · rfl
  · dsimp only
    rcases hpt : Face.stressPrismTotal K f with _ | total
    · rfl
    · dsimp only
      rcases hm1 : Face.minByVolume K (Face.firstSplitFrags K f pl total)
        with _ | s0
      · rfl
      · dsimp only
        rcases hm2 : Face.minByVolume K (Face.secondSplitCands K f s0)
          with _ | best
        · rfl
        · dsimp only
          rcases hpts : K.curveBrepPoints (K.centroid best)
              (K.centroid best + f.normal) f.brep_surface with _ | ⟨p, ps⟩
          · rfl
          · rfl

/-- The incremental axial correction leaves the normal unchanged. -/
lemma increaseStressDistribution_normal {S : Type} (K : Kernel S)
    (f : Face S) (a : ℝ) :
    (Face.increaseStressDistribution K f a).1.normal = f.normal := by
  unfold Face.increaseStressDistribution
  dsimp only
  rcases hsd : f.stress_distribution with _ | sd
  · rfl
  · dsimp only
    by_cases h0 : f.max_stress + a = 0
    · rw [if_pos h0]
    · rw [if_neg h0]
      cases hn : Vector.normalized f.normal with
      | error e => rfl
      | ok nu =>
        dsimp only
        rw [createStressDistribution_normal, translateStressFacePlane_normal]

/-- Negating all normals twice restores the face list. -/
lemma negateNormals_negateNormals {S : Type} (faces : List (Face S)) :
    negateNormals (negateNormals faces) = faces := by
  induction faces with
  | nil => rfl
  | cons a t ih =>
    show ({ a with normal := (-1 : ℝ) • ((-1 : ℝ) • a.normal) } : Face S) ::
      negateNormals (negateNormals t) = a :: t
    rw [ih, Vector.neg_one_smul_neg_one_smul]

/-- Setting an index to a face with the same normal preserves the list of
normals. -/
lemma map_normal_set {S : Type} (l : List (Face S)) :
    ∀ (i : ℕ) (x d : Face S), x.normal = (l.getD i d).normal →
      (l.set i x).map (fun f => f.normal) = l.map (fun f => f.normal) := by
  induction l with
  | nil => intro i x d _; rfl
  | cons a t ih =>
    intro i x d h
    cases i with
    | zero =>
      rw [List.getD_cons_zero] at h
      rw [List.set_cons_zero, List.map_cons, List.map_cons, h]
    | succ n =>
      rw [List.getD_cons_succ] at h
      rw [List.set_cons_succ, List.map_cons, List.map_cons, ih n x d h]

/-- A successful axial iteration leaves every normal unchanged: the
temporary negation for the second component is undone before the stress
increments are written, and the increments themselves never touch a
normal. -/
lemma axialApply_normals {S : Type} (K : Kernel S) (force : Vector)
    (negate : Bool) (facing helping : ℕ) (f0 : Face S)
    (facingUR screwUR helpingUR : Vector) (faces1 faces' : List (Face S))
    (h : axialApply K force negate facing helping f0 facingUR screwUR
      helpingUR faces1 = (faces', none)) :
    faces'.map (fun f => f.normal) =
      (if negate then negateNormals faces1 else faces1).map
        (fun f => f.normal) := by
  unfold axialApply at h
  dsimp only at h
  repeat' split at h
  all_goals try exact Option.noConfusion (congrArg Prod.snd h)
  all_goals (
    rw [Prod.mk.injEq] at h
    obtain ⟨h1, h2⟩ := h
    subst h1
    rw [map_normal_set _ helping _ f0 (increaseStressDistribution_normal K _ _),
      map_normal_set _ facing _ f0 (increaseStressDistribution_normal K _ _)]
    split <;> simp_all)

lemma axialIterFrom_normals {S : Type} (K : Kernel S) (screw force : Vector)
    (negate : Bool) (faces1 faces' : List (Face S))
    (h : axialIterFrom K screw force negate faces1 = (faces', none)) :
    faces'.map (fun f => f.normal) =
      (if negate then negateNormals faces1 else faces1).map
        (fun f => f.normal) := by
  unfold axialIterFrom at h
  dsimp only at h
  set normals := List.map (fun f => f.normal) faces1 with hnormals
  set uf := force / force.norm with huf
  set facing := facingFaceId normals uf with hfacing
  set helping := helpingFaceId normals facing with hhelping
  repeat' split at h
  all_goals try exact Option.noConfusion (congrArg Prod.snd h)
  all_goals exact axialApply_normals K force negate _ _ _ _ _ _ _ _ h

/-- A successful axial iteration leaves every normal unchanged: the
temporary negation for the second component is undone before the stress
increments are written, and the increments themselves never touch a
normal. -/
lemma axialIter_normals {S : Type} (K : Kernel S) (screw force : Vector)
    (negate : Bool) (faces faces' : List (Face S))
    (h : axialIter K screw force negate faces = (faces', none)) :
    faces'.map (fun f => f.normal) = faces.map (fun f => f.normal) := by
  unfold axialIter at h
  have hcore := axialIterFrom_normals K screw force negate _ _ h
  cases negate with
  | false => simpa using hcore
  | true => simpa [negateNormals_negateNormals] using hcore

/-- A normally-completing axial phase leaves every normal unchanged. -/
lemma computeAxialStresses_normals {S : Type} (K : Kernel S)
    (screw axial_force : Vector) (main_axes : List Vector)
    (faces faces' : List (Face S))
    (h : computeAxialStresses K screw axial_force main_axes faces =
      (faces', none)) :
    faces'.map (fun f => f.normal) = faces.map (fun f => f.normal) := by
  unfold computeAxialStresses at h
  dsimp only at h
  repeat' split at h
  all_goals try exact Option.noConfusion (congrArg Prod.snd h)
  all_goals
    first
      | exact axialIter_normals K screw _ _ _ _ h
      | (rename_i faces1 heq
         exact (axialIter_normals K screw _ _ _ _ h).trans
           (axialIter_normals K screw _ _ _ _ heq))

lemma norm_eval (x y z r : ℝ) (hr : 0 ≤ r) (h : x ^ 2 + y ^ 2 + z ^ 2 = r ^ 2) :
    (⟨x, y, z⟩ : Vector).norm = r := by
  rw [show ((⟨x, y, z⟩ : Vector)).norm = Real.sqrt (x ^ 2 + y ^ 2 + z ^ 2)
    from rfl, h, Real.sqrt_sq hr]

lemma foldAngle_of_not_gt (a : ℝ) (h : ¬ a > Real.pi / 2) : foldAngle a = a :=
  if_neg h

lemma foldAngle_of_gt (a : ℝ) (h : a > Real.pi / 2) :
    foldAngle a = Real.pi - a :=
  if_pos h

lemma arccos45_not_gt : ¬ Real.arccos (4 / 5) > Real.pi / 2 :=
  not_lt.mpr (le_of_lt (Real.arccos_lt_pi_div_two.mpr (by norm_num)))

lemma sin_arccos45 : Real.sin (Real.arccos (4 / 5)) = 3 / 5 := by
  rw [Real.sin_arccos, show (1 : ℝ) - (4 / 5) ^ 2 = (3 / 5) ^ 2 by norm_num,
    Real.sqrt_sq (by norm_num)]

lemma cos_arccos45 : Real.cos (Real.arccos (4 / 5)) = 4 / 5 :=
  Real.cos_arccos (by norm_num) (by norm_num)

lemma pi_div_two_not_gt : ¬ Real.pi / 2 > Real.pi / 2 := lt_irrefl _

lemma pi_gt_pi_div_two : Real.pi > Real.pi / 2 := by
  have := Real.pi_pos
  linarith

/-- Translating the stored cutting plane by a zero-coefficient vector does
nothing. -/
lemma translate_by_zero_coeff {S : Type} (g : Face S) (r : ℝ) (v : Vector)
    (hr : r = 0) : Face.translateStressFacePlane g (r • v) = g := by
  subst hr
  unfold Face.translateStressFacePlane
  rcases hpl : g.stress_face_plane with _ | pl
  · rfl
  · have hmove : pl.translate ((0 : ℝ) • v) = pl := by
      unfold Plane.translate
      rcases pl with ⟨o, xa, ya, za⟩
      simp
    dsimp only
    rw [hmove, ← hpl]

/-- Over the `KNat8` kernel, the incremental axial correction reduces to:
bump `max_stress`, keep the plane (the translation is zero because the
wireframe is empty), and rebuild the stress solid as the fragment `5` with
resultant at the origin. -/
lemma increase_KNat8_eval (f : Face ℕ) (a : ℝ) (sd : ℕ) (pl : Plane)
    (hsd : f.stress_distribution = some sd)
    (hms : ¬ f.max_stress + a = 0)
    (hn : f.normal.norm ≠ 0)
    (hpl : f.stress_face_plane = some pl) :
    Face.increaseStressDistribution KNat8 f a =
      ({ f with max_stress := f.max_stress + a, is_stressed := true,
                stress_distribution := some 5,
                resultant_location := some ⟨0, 0, 0⟩ }, none) := by
  have hme : Face.maxNormalEdge KNat8 f.normal sd = 0 := rfl
  unfold Face.increaseStressDistribution
  dsimp only
  rw [hsd]
  dsimp only
  rw [hme, if_neg hms]
  unfold Vector.normalized
  rw [if_neg hn]
  dsimp only
  rw [translate_by_zero_coeff _ _ _
    (by rw [Vector.norm_zero, zero_div, mul_zero, mul_zero])]
  unfold Face.createStressDistribution
  dsimp only
  rw [hpl]
  dsimp only
  rfl

lemma norm_300 : (⟨3, 0, 0⟩ : Vector).norm = 3 :=
  norm_eval 3 0 0 3 (by norm_num) (by norm_num)

lemma norm_040 : (⟨0, 4, 0⟩ : Vector).norm = 4 :=
  norm_eval 0 4 0 4 (by norm_num) (by norm_num)

lemma norm_wf0n : (⟨0, 3 / 5, 4 / 5⟩ : Vector).norm = 1 :=
  norm_eval 0 (3 / 5) (4 / 5) 1 (by norm_num) (by norm_num)

lemma norm_wf1n : (⟨-(4 / 5), 3 / 5, 0⟩ : Vector).norm = 1 :=
  norm_eval (-(4 / 5)) (3 / 5) 0 1 (by norm_num) (by norm_num)

lemma norm_001 : (⟨0, 0, 1⟩ : Vector).norm = 1 :=
  norm_eval 0 0 1 1 (by norm_num) (by norm_num)

/-- Evaluation of the first axial iteration tail on the concrete joint. -/
lemma apply1_eval :
    axialApply KNat8 ⟨3, 0, 0⟩ false 1 0 wf0 ⟨-(4 / 5), 3 / 5, 0⟩
      ⟨0, 0, 4 / 5⟩ ⟨0, -(3 / 5), -(4 / 5)⟩ [wf0, wf1] =
      ([wf0M, wf1M], none) := by
  have hpaF : Vector.projectAlong ⟨-(4 / 5), 3 / 5, 0⟩ ⟨3, 0, 0⟩ =
      Except.ok ⟨-(4 / 5), 0, 0⟩ := by
    unfold Vector.projectAlong
    rw [if_neg (by rw [norm_300]; norm_num), norm_300]
    congr 1
    norm_num
  have hpaH : Vector.projectAlong ⟨0, -(3 / 5), -(4 / 5)⟩ ⟨3, 0, 0⟩ =
      Except.ok ⟨0, 0, 0⟩ := by
    unfold Vector.projectAlong
    rw [if_neg (by rw [norm_300]; norm_num), norm_300]
    congr 1
    norm_num
  have hpaS : Vector.projectAlong ⟨0, 0, 4 / 5⟩ ⟨3, 0, 0⟩ =
      Except.ok ⟨0, 0, 0⟩ := by
    unfold Vector.projectAlong
    rw [if_neg (by rw [norm_300]; norm_num), norm_300]
    congr 1
    norm_num
  have hD1 : ([wf0, wf1] : List (Face ℕ)).getD 1 wf0 = wf1 := rfl
  have hD0 : ([wf0, wf1] : List (Face ℕ)).getD 0 wf0 = wf0 := rfl
  have hDset : ∀ x : Face ℕ,
      (([wf0, wf1] : List (Face ℕ)).set 1 x).getD 0 wf0 = wf0 := fun x => rfl
  have hsets : ∀ x y : Face ℕ,
      (([wf0, wf1] : List (Face ℕ)).set 1 x).set 0 y = [y, x] :=
    fun x y => rfl
  unfold axialApply
  simp only [Bool.false_eq_true, if_false]
  rw [hpaF, hpaH, hpaS]
  try dsimp only
  rw [show (⟨-(4 / 5), 0, 0⟩ + ⟨0, 0, 0⟩ + ⟨0, 0, 0⟩ : Vector) =
    ⟨-(4 / 5), 0, 0⟩ by norm_num]
  rw [show (⟨-(4 / 5), 0, 0⟩ : Vector).norm = 4 / 5 from
    norm_eval (-(4 / 5)) 0 0 (4 / 5) (by norm_num) (by norm_num)]
  rw [if_neg (by norm_num : ¬(4 / 5 : ℝ) = 0)]
  try dsimp only
  rw [hD1, hD0]
  rw [show wf1.area = (1 : ℝ) from rfl, show wf0.area = (1 : ℝ) from rfl]
  rw [if_neg (by norm_num : ¬(1 : ℝ) = 0), if_neg (by norm_num : ¬(1 : ℝ) = 0)]
  rw [norm_300]
  rw [show ((3 : ℝ) / (4 / 5)) • (⟨-(4 / 5), 3 / 5, 0⟩ : Vector) =
    ⟨-3, 9 / 4, 0⟩ by norm_num]
  rw [show (⟨-3, 9 / 4, 0⟩ : Vector).norm = 15 / 4 from
    norm_eval (-3) (9 / 4) 0 (15 / 4) (by norm_num) (by norm_num)]
  rw [show ((3 : ℝ) / (4 / 5)) • (⟨0, -(3 / 5), -(4 / 5)⟩ : Vector) =
    ⟨0, -(9 / 4), -3⟩ by norm_num]
  rw [show (⟨0, -(9 / 4), -3⟩ : Vector).norm = 15 / 4 from
    norm_eval 0 (-(9 / 4)) (-3) (15 / 4) (by norm_num) (by norm_num)]
  rw [div_one]
  rw [increase_KNat8_eval wf1 (15 / 4) 9 PL0 rfl
    (by rw [show wf1.max_stress = (1 : ℝ) from rfl]; norm_num)
    (by rw [show wf1.normal = (⟨-(4 / 5), 3 / 5, 0⟩ : Vector) from rfl,
      norm_wf1n]; norm_num) rfl]
  try dsimp only
  rw [hDset]
  rw [increase_KNat8_eval wf0 (15 / 4) 9 PL0 rfl
    (by rw [show wf0.max_stress = (1 : ℝ) from rfl]; norm_num)
    (by rw [show wf0.normal = (⟨0, 3 / 5, 4 / 5⟩ : Vector) from rfl,
      norm_wf0n]; norm_num) rfl]
  try dsimp only
  rw [hsets]
  norm_num [wf0, wf1, wf0M, wf1M]

/-- Evaluation of the first axial iteration on the concrete joint. -/
lemma iter1_eval :
    axialIter KNat8 ⟨0, 0, 1⟩ ⟨3, 0, 0⟩ false [wf0, wf1] =
      ([wf0M, wf1M], none) := by
  have hfc : facingFaceId [⟨0, 3 / 5, 4 / 5⟩, ⟨-(4 / 5), 3 / 5, 0⟩]
      ⟨1, 0, 0⟩ = 1 := by
    unfold facingFaceId
    norm_num [facingLoop, List.range']
  have hhp : helpingFaceId [⟨0, 3 / 5, 4 / 5⟩, ⟨-(4 / 5), 3 / 5, 0⟩] 1 = 0 := by
    unfold helpingFaceId
    norm_num [helpingLoop, List.range']
  have hpS : Vector.projectInPlane ⟨0, 0, 1⟩ ⟨3, 0, 0⟩ =
      Except.ok ⟨0, 0, 1⟩ := by
    unfold Vector.projectInPlane
    rw [if_neg (by rw [norm_300]; norm_num), norm_300]
    norm_num
  have hpF : Vector.projectInPlane ⟨-(4 / 5), 3 / 5, 0⟩ ⟨3, 0, 0⟩ =
      Except.ok ⟨0, 3 / 5, 0⟩ := by
    unfold Vector.projectInPlane
    rw [if_neg (by rw [norm_300]; norm_num), norm_300]
    norm_num
  have hpH : Vector.projectInPlane ⟨0, 3 / 5, 4 / 5⟩ ⟨3, 0, 0⟩ =
      Except.ok ⟨0, 3 / 5, 4 / 5⟩ := by
    unfold Vector.projectInPlane
    rw [if_neg (by rw [norm_300]; norm_num), norm_300]
    norm_num
  have haF : foldAngle (Vector.computeAngleWith ⟨0, 0, 1⟩ ⟨0, 3 / 5, 0⟩) =
      Real.pi / 2 := by
    have h1 : Vector.computeAngleWith ⟨0, 0, 1⟩ ⟨0, 3 / 5, 0⟩ =
        Real.pi / 2 := by
      unfold Vector.computeAngleWith
      rw [norm_001, show (⟨0, 3 / 5, 0⟩ : Vector).norm = 3 / 5 from
        norm_eval 0 (3 / 5) 0 (3 / 5) (by norm_num) (by norm_num)]
      norm_num [Real.arccos_zero]
    rw [h1, foldAngle_of_not_gt _ pi_div_two_not_gt]
  have haH : foldAngle (Vector.computeAngleWith ⟨0, 0, 1⟩ ⟨0, 3 / 5, 4 / 5⟩) =
      Real.arccos (4 / 5) := by
    have h1 : Vector.computeAngleWith ⟨0, 0, 1⟩ ⟨0, 3 / 5, 4 / 5⟩ =
        Real.arccos (4 / 5) := by
      unfold Vector.computeAngleWith
      rw [norm_001, norm_wf0n]
      norm_num
    rw [h1, foldAngle_of_not_gt _ arccos45_not_gt]
  unfold axialIter axialIterFrom
  simp only [Bool.false_eq_true, if_false]
  rw [if_neg (by rw [norm_300]; norm_num :
    ¬(2 ≤ ([wf0, wf1] : List (Face ℕ)).length ∧
      (⟨3, 0, 0⟩ : Vector).norm = 0))]
  rw [norm_300]
  rw [show (⟨3, 0, 0⟩ : Vector) / (3 : ℝ) = ⟨1, 0, 0⟩ by norm_num]
  rw [show List.map (fun f => f.normal) ([wf0, wf1] : List (Face ℕ)) =
    [⟨0, 3 / 5, 4 / 5⟩, ⟨-(4 / 5), 3 / 5, 0⟩] from rfl]
  rw [hfc, hhp, hpS]
  try dsimp only
  rw [show ([wf0, wf1] : List (Face ℕ)).getD 1 wf0 = wf1 from rfl,
    show ([wf0, wf1] : List (Face ℕ)).getD 0 wf0 = wf0 from rfl]
  rw [show wf1.normal = (⟨-(4 / 5), 3 / 5, 0⟩ : Vector) from rfl,
    show wf0.normal = (⟨0, 3 / 5, 4 / 5⟩ : Vector) from rfl]
  rw [hpF, hpH]
  try dsimp only
  rw [norm_001, norm_wf1n, norm_wf0n]
  rw [if_neg (by norm_num : ¬(1 : ℝ) = 0),
    if_neg (by norm_num : ¬(1 : ℝ) = 0),
    if_neg (by norm_num : ¬(1 : ℝ) = 0)]
  rw [haF, haH, Real.sin_pi_div_two]
  rw [if_neg (by norm_num : ¬(1 : ℝ) = 0)]
  rw [show (⟨0, 3 / 5, 0⟩ : Vector).norm = 3 / 5 from
    norm_eval 0 (3 / 5) 0 (3 / 5) (by norm_num) (by norm_num)]
  simp only [div_one]
  rw [if_neg (by norm_num : ¬(3 / 5 : ℝ) = 0),
    if_neg (by norm_num : ¬(1 : ℝ) = 0),
    if_neg (by norm_num : ¬(1 : ℝ) = 0)]
  rw [show Real.pi - Real.arccos (4 / 5) - Real.pi / 2 =
    Real.pi / 2 - Real.arccos (4 / 5) by ring, Real.sin_pi_div_two_sub,
    cos_arccos45, sin_arccos45]
  convert apply1_eval using 2 <;> norm_num

lemma negateNormals_mid : negateNormals [wf0M, wf1M] = [wf0Mn, wf1Mn] := by
  norm_num [negateNormals, wf0M, wf1M, wf0Mn, wf1Mn]

lemma negateNormals_midn : negateNormals [wf0Mn, wf1Mn] = [wf0M, wf1M] := by
  norm_num [negateNormals, wf0M, wf1M, wf0Mn, wf1Mn]

/-- Evaluation of the second axial iteration tail on the concrete joint. -/
lemma apply2_eval :
    axialApply KNat8 ⟨0, 4, 0⟩ true 1 0 wf0Mn ⟨0, 0, 0⟩ ⟨0, 0, 1⟩
      ⟨0, 3 / 4, 1⟩ [wf0Mn, wf1Mn] = ([wf0F, wf1M], none) := by
  have hpaF : Vector.projectAlong ⟨0, 0, 0⟩ ⟨0, 4, 0⟩ =
      Except.ok ⟨0, 0, 0⟩ := by
    unfold Vector.projectAlong
    rw [if_neg (by rw [norm_040]; norm_num), norm_040]
    norm_num
  have hpaH : Vector.projectAlong ⟨0, 3 / 4, 1⟩ ⟨0, 4, 0⟩ =
      Except.ok ⟨0, 3 / 4, 0⟩ := by
    unfold Vector.projectAlong
    rw [if_neg (by rw [norm_040]; norm_num), norm_040]
    norm_num
  have hpaS : Vector.projectAlong ⟨0, 0, 1⟩ ⟨0, 4, 0⟩ =
      Except.ok ⟨0, 0, 0⟩ := by
    unfold Vector.projectAlong
    rw [if_neg (by rw [norm_040]; norm_num), norm_040]
    norm_num
  have hD1 : ([wf0M, wf1M] : List (Face ℕ)).getD 1 wf0Mn = wf1M := rfl
  have hD0 : ([wf0M, wf1M] : List (Face ℕ)).getD 0 wf0Mn = wf0M := rfl
  have hDset : ∀ x : Face ℕ,
      (([wf0M, wf1M] : List (Face ℕ)).set 1 x).getD 0 wf0Mn = wf0M :=
    fun x => rfl
  have hsets : ∀ x y : Face ℕ,
      (([wf0M, wf1M] : List (Face ℕ)).set 1 x).set 0 y = [y, x] :=
    fun x y => rfl
  unfold axialApply
  simp only [eq_self_iff_true, if_true]
  rw [negateNormals_midn]
  rw [hpaF, hpaH, hpaS]
  try dsimp only
  rw [show (⟨0, 0, 0⟩ + ⟨0, 3 / 4, 0⟩ + ⟨0, 0, 0⟩ : Vector) =
    ⟨0, 3 / 4, 0⟩ by norm_num]
  rw [show (⟨0, 3 / 4, 0⟩ : Vector).norm = 3 / 4 from
    norm_eval 0 (3 / 4) 0 (3 / 4) (by norm_num) (by norm_num)]
  rw [if_neg (by norm_num : ¬(3 / 4 : ℝ) = 0)]
  try dsimp only
  rw [hD1, hD0]
  rw [show wf1M.area = (1 : ℝ) from rfl, show wf0M.area = (1 : ℝ) from rfl]
  rw [if_neg (by norm_num : ¬(1 : ℝ) = 0), if_neg (by norm_num : ¬(1 : ℝ) = 0)]
  rw [norm_040]
  rw [show ((4 : ℝ) / (3 / 4)) • (⟨0, 0, 0⟩ : Vector) = ⟨0, 0, 0⟩ by norm_num]
  rw [show (⟨0, 0, 0⟩ : Vector).norm = 0 from Vector.norm_zero]
  rw [show ((4 : ℝ) / (3 / 4)) • (⟨0, 3 / 4, 1⟩ : Vector) =
    ⟨0, 4, 16 / 3⟩ by norm_num]
  rw [show (⟨0, 4, 16 / 3⟩ : Vector).norm = 20 / 3 from
    norm_eval 0 4 (16 / 3) (20 / 3) (by norm_num) (by norm_num)]
  rw [div_one, div_one]
  rw [increase_KNat8_eval wf1M 0 5 PL0 rfl
    (by rw [show wf1M.max_stress = (19 : ℝ) / 4 from rfl]; norm_num)
    (by rw [show wf1M.normal = (⟨-(4 / 5), 3 / 5, 0⟩ : Vector) from rfl,
      norm_wf1n]; norm_num) rfl]
  try dsimp only
  rw [hDset]
  rw [increase_KNat8_eval wf0M (20 / 3) 5 PL0 rfl
    (by rw [show wf0M.max_stress = (19 : ℝ) / 4 from rfl]; norm_num)
    (by rw [show wf0M.normal = (⟨0, 3 / 5, 4 / 5⟩ : Vector) from rfl,
      norm_wf0n]; norm_num) rfl]
  try dsimp only
  rw [hsets]
  norm_num [wf0M, wf1M, wf0F]

/-- Evaluation of the second axial iteration on the concrete joint. -/
lemma iter2_eval :
    axialIter KNat8 ⟨0, 0, 1⟩ ⟨0, 4, 0⟩ true [wf0M, wf1M] =
      ([wf0F, wf1M], none) := by
  have hfc : facingFaceId [⟨0, -(3 / 5), -(4 / 5)⟩, ⟨4 / 5, -(3 / 5), 0⟩]
      ⟨0, 1, 0⟩ = 1 := by
    unfold facingFaceId
    norm_num [facingLoop, List.range']
  have hhp : helpingFaceId [⟨0, -(3 / 5), -(4 / 5)⟩, ⟨4 / 5, -(3 / 5), 0⟩] 1
      = 0 := by
    unfold helpingFaceId
    norm_num [helpingLoop, List.range']
  have hpS : Vector.projectInPlane ⟨0, 0, 1⟩ ⟨0, 4, 0⟩ =
      Except.ok ⟨0, 0, 1⟩ := by
    unfold Vector.projectInPlane
    rw [if_neg (by rw [norm_040]; norm_num), norm_040]
    norm_num
  have hpF : Vector.projectInPlane ⟨4 / 5, -(3 / 5), 0⟩ ⟨0, 4, 0⟩ =
      Except.ok ⟨4 / 5, 0, 0⟩ := by
    unfold Vector.projectInPlane
    rw [if_neg (by rw [norm_040]; norm_num), norm_040]
    norm_num
  have hpH : Vector.projectInPlane ⟨0, -(3 / 5), -(4 / 5)⟩ ⟨0, 4, 0⟩ =
      Except.ok ⟨0, 0, -(4 / 5)⟩ := by
    unfold Vector.projectInPlane
    rw [if_neg (by rw [norm_040]; norm_num), norm_040]
    norm_num
  have haF : foldAngle (Vector.computeAngleWith ⟨0, 0, 1⟩ ⟨4 / 5, 0, 0⟩) =
      Real.pi / 2 := by
    have h1 : Vector.computeAngleWith ⟨0, 0, 1⟩ ⟨4 / 5, 0, 0⟩ =
        Real.pi / 2 := by
      unfold Vector.computeAngleWith
      rw [norm_001, show (⟨4 / 5, 0, 0⟩ : Vector).norm = 4 / 5 from
        norm_eval (4 / 5) 0 0 (4 / 5) (by norm_num) (by norm_num)]
      norm_num [Real.arccos_zero]
    rw [h1, foldAngle_of_not_gt _ pi_div_two_not_gt]
  have haH : foldAngle (Vector.computeAngleWith ⟨0, 0, 1⟩ ⟨0, 0, -(4 / 5)⟩) =
      0 := by
    have h1 : Vector.computeAngleWith ⟨0, 0, 1⟩ ⟨0, 0, -(4 / 5)⟩ =
        Real.pi := by
      unfold Vector.computeAngleWith
      rw [norm_001, show (⟨0, 0, -(4 / 5)⟩ : Vector).norm = 4 / 5 from
        norm_eval 0 0 (-(4 / 5)) (4 / 5) (by norm_num) (by norm_num)]
      norm_num [Real.arccos_neg_one]
    rw [h1, foldAngle_of_gt _ pi_gt_pi_div_two, sub_self]
  unfold axialIter axialIterFrom
  simp only [eq_self_iff_true, if_true]
  rw [negateNormals_mid]
  rw [if_neg (by rw [norm_040]; norm_num :
    ¬(2 ≤ ([wf0Mn, wf1Mn] : List (Face ℕ)).length ∧
      (⟨0, 4, 0⟩ : Vector).norm = 0))]
  rw [norm_040]
  rw [show (⟨0, 4, 0⟩ : Vector) / (4 : ℝ) = ⟨0, 1, 0⟩ by norm_num]
  rw [show List.map (fun f => f.normal) ([wf0Mn, wf1Mn] : List (Face ℕ)) =
    [⟨0, -(3 / 5), -(4 / 5)⟩, ⟨4 / 5, -(3 / 5), 0⟩] from rfl]
  rw [hfc, hhp, hpS]
  try dsimp only
  rw [show ([wf0Mn, wf1Mn] : List (Face ℕ)).getD 1 wf0Mn = wf1Mn from rfl,
    show ([wf0Mn, wf1Mn] : List (Face ℕ)).getD 0 wf0Mn = wf0Mn from rfl]
  rw [show wf1Mn.normal = (⟨4 / 5, -(3 / 5), 0⟩ : Vector) from rfl,
    show wf0Mn.normal = (⟨0, -(3 / 5), -(4 / 5)⟩ : Vector) from rfl]
  rw [hpF, hpH]
  try dsimp only
  rw [norm_001,
    show (⟨4 / 5, -(3 / 5), 0⟩ : Vector).norm = 1 from
      norm_eval (4 / 5) (-(3 / 5)) 0 1 (by norm_num) (by norm_num),
    show (⟨0, -(3 / 5), -(4 / 5)⟩ : Vector).norm = 1 from
      norm_eval 0 (-(3 / 5)) (-(4 / 5)) 1 (by norm_num) (by norm_num)]
  rw [if_neg (by norm_num : ¬(1 : ℝ) = 0),
    if_neg (by norm_num : ¬(1 : ℝ) = 0),
    if_neg (by norm_num : ¬(1 : ℝ) = 0)]
  rw [haF, haH, Real.sin_pi_div_two]
  rw [if_neg (by norm_num : ¬(1 : ℝ) = 0)]
  rw [show (⟨4 / 5, 0, 0⟩ : Vector).norm = 4 / 5 from
    norm_eval (4 / 5) 0 0 (4 / 5) (by norm_num) (by norm_num)]
  rw [show (⟨0, 0, -(4 / 5)⟩ : Vector).norm = 4 / 5 from
    norm_eval 0 0 (-(4 / 5)) (4 / 5) (by norm_num) (by norm_num)]
  simp only [div_one]
  rw [if_neg (by norm_num : ¬(4 / 5 : ℝ) = 0),
    if_neg (by norm_num : ¬(1 : ℝ) = 0),
    if_neg (by norm_num : ¬(4 / 5 : ℝ) = 0)]
  rw [show Real.pi - 0 - Real.pi / 2 = Real.pi / 2 by ring,
    Real.sin_pi_div_two, Real.sin_zero]
  convert apply2_eval using 2 <;> norm_num

/-- The sine-rule decomposition of the witness force onto the witness
axes. -/
lemma components_345 :
    axialComponents ⟨1, 0, 0⟩ ⟨0, 1, 0⟩ ⟨3, 4, 0⟩ =
      (⟨3, 0, 0⟩, ⟨0, 4, 0⟩) := by
  have htheta : Vector.computeAngleWith ⟨1, 0, 0⟩ ⟨3, 4, 0⟩ =
      Real.arccos (3 / 5) := by
    unfold Vector.computeAngleWith
    rw [norm_e1, show (⟨3, 4, 0⟩ : Vector).norm = 5 from
      norm_eval 3 4 0 5 (by norm_num) (by norm_num)]
    norm_num
  unfold axialComponents
  rw [angle_e1_e2, htheta, norm_e1,
    show (⟨3, 4, 0⟩ : Vector).norm = 5 from
      norm_eval 3 4 0 5 (by norm_num) (by norm_num)]
  dsimp only
  rw [show Real.pi - Real.pi / 2 = Real.pi / 2 by ring, Real.sin_pi_div_two,
    Real.sin_pi_div_two_sub, Real.cos_arccos (by norm_num) (by norm_num)]
  norm_num

/-- Evaluation of the whole axial phase on the concrete joint: both
components are retained and both iterations complete. -/
lemma run_eval :
    computeAxialStresses KNat8 ⟨0, 0, 1⟩ ⟨3, 4, 0⟩ [⟨1, 0, 0⟩, ⟨0, 1, 0⟩]
      [wf0, wf1] = ([wf0F, wf1M], none) := by
  unfold computeAxialStresses
  rw [if_neg (by norm_num)]
  try dsimp only
  rw [show ([⟨1, 0, 0⟩, ⟨0, 1, 0⟩] : List Vector).getD 0 0 = ⟨1, 0, 0⟩
    from rfl, show ([⟨1, 0, 0⟩, ⟨0, 1, 0⟩] : List Vector).getD 1 0 = ⟨0, 1, 0⟩
    from rfl]
  rw [if_neg (by rw [sin_pi_sub_angle_e1_e2]; norm_num)]
  rw [if_neg (by rw [norm_e1]; norm_num)]
  rw [components_345]
  try dsimp only
  rw [show (⟨3, 0, 0⟩ + ⟨0, 4, 0⟩ - ⟨3, 4, 0⟩ : Vector) = ⟨0, 0, 0⟩
    by norm_num]
  rw [show (⟨0, 0, 0⟩ : Vector).norm = 0 from Vector.norm_zero]
  rw [if_neg (by norm_num : ¬¬((0 : ℝ) < 1e-6))]
  rw [norm_040, norm_300]
  rw [if_neg (by norm_num : ¬(4 : ℝ) = 0)]
  rw [if_neg (by norm_num : ¬(3 : ℝ) / 4 > 50)]
  rw [if_neg (by norm_num : ¬(3 : ℝ) = 0)]
  rw [if_neg (by norm_num : ¬(4 : ℝ) / 3 > 50)]
  rw [iter1_eval]
  try dsimp only
  exact iter2_eval

/-! ### Claim theorems -/

/-- C1: after the moment phase, for a joint whose every face obtained a
stress-distribution solid (and whose total stress volume is nonzero, without
which the Python weight computation itself divides by zero),
`moment_weights` has the same length as `faces`, its `i`-th entry is the
`i`-th face's stress-solid volume divided by the sum of all volumes, and the
entries sum to `1.0` within `1e-9` (here: exactly). -/
theorem moment_weights_partition {S : Type} (K : Kernel S)
    (faces : List (Face S))
    (hsolid : ∀ f ∈ faces, f.stress_distribution.isSome)
    (hsum : (faces.map (faceStressVolume K)).sum ≠ 0) :
    (momentWeights K faces).length = faces.length ∧
    (∀ i, i < faces.length →
      (momentWeights K faces).getD i 0 =
        (faces.map (faceStressVolume K)).getD i 0 /
          (faces.map (faceStressVolume K)).sum) ∧
    |(momentWeights K faces).sum - 1| ≤ (1e-9 : ℝ) := by
  refine ⟨?_, ?_, ?_⟩
  · simp [momentWeights]
  · intro i hi
    have hi' : i < (faces.map (faceStressVolume K)).length := by simpa using hi
    simp only [momentWeights]
    rw [List.getD_eq_getElem?_getD, List.getElem?_map,
      List.getElem?_eq_getElem hi', List.getD_eq_getElem?_getD,
      List.getElem?_eq_getElem hi']
    simp
  · simp only [momentWeights]
    rw [sum_map_div, div_self hsum]
    norm_num

/-- Witness for C1 at a concrete two-face joint over the trivial kernel. -/
theorem moment_weights_partition_witness :
    (momentWeights KUnit [faceC1a, faceC1b]).length =
      ([faceC1a, faceC1b] : List (Face Unit)).length ∧
    (∀ i, i < ([faceC1a, faceC1b] : List (Face Unit)).length →
      (momentWeights KUnit [faceC1a, faceC1b]).getD i 0 =
        (([faceC1a, faceC1b] : List (Face Unit)).map
          (faceStressVolume KUnit)).getD i 0 /
          (([faceC1a, faceC1b] : List (Face Unit)).map
            (faceStressVolume KUnit)).sum) ∧
    |(momentWeights KUnit [faceC1a, faceC1b]).sum - 1| ≤ (1e-9 : ℝ) :=
  moment_weights_partition KUnit [faceC1a, faceC1b]
    (by
      intro f hf
      rcases List.mem_cons.mp hf with rfl | hf
      · rfl
      rcases List.mem_cons.mp hf with rfl | hf
      · rfl
      · cases hf)
    (by
      simp [faceStressVolume, volumeLambda, KUnit, faceC1a, faceC1b])

/-- C2: the axial phase fails with the `ValueError` whenever
`joint.main_axes` does not contain exactly two directions, and the returned
face list is exactly the input list: no face was modified before the
failure. -/
theorem axial_phase_requires_two_main_axes {S : Type} (K : Kernel S)
    (screw axial_force : Vector) (main_axes : List Vector)
    (faces : List (Face S)) (h : main_axes.length ≠ 2) :
    computeAxialStresses K screw axial_force main_axes faces =
      (faces, some "ValueError: Joint must have exactly two main axes") := by
  unfold computeAxialStresses
  rw [if_pos h]

/-- Witness for C2: three distinct main axes. -/
theorem axial_phase_requires_two_main_axes_witness :
    computeAxialStresses KUnit ⟨0, 0, 1⟩ ⟨1, 0, 0⟩
      [⟨1, 0, 0⟩, ⟨0, 1, 0⟩, ⟨0, 0, 1⟩] [faceC1a, faceC1b] =
      ([faceC1a, faceC1b],
        some "ValueError: Joint must have exactly two main axes") :=
  axial_phase_requires_two_main_axes KUnit ⟨0, 0, 1⟩ ⟨1, 0, 0⟩
    [⟨1, 0, 0⟩, ⟨0, 1, 0⟩, ⟨0, 0, 1⟩] [faceC1a, faceC1b] (by norm_num)

/-- C10: `compute_angle_with` returns `0.0` when either operand has norm
exactly zero, so `is_parallel_to` holds between the zero vector and any
vector for every positive tolerance, while `normalized`,
`project_in_plane` and `project_along` reject the zero vector with an
error. -/
theorem compute_angle_with_zero_vector (u v : Vector) (tol : ℝ)
    (hu : u.norm = 0) (htol : 0 < tol) :
    u.computeAngleWith v = 0 ∧ v.computeAngleWith u = 0 ∧
    u.isParallelTo v tol ∧
    u.normalized = .error "ValueError: Cannot normalize zero-length vector." ∧
    Vector.projectInPlane v u =
      .error "ValueError: Normal vector cannot be null." ∧
    Vector.projectAlong v u =
      .error "ValueError: Other vector cannot be null." := by
  have h1 : u.computeAngleWith v = 0 := by
    simp [Vector.computeAngleWith, hu]
  have h2 : v.computeAngleWith u = 0 := by
    simp [Vector.computeAngleWith, hu]
  refine ⟨h1, h2, ?_, ?_, ?_, ?_⟩
  · unfold Vector.isParallelTo
    left
    rw [h1]
    simpa using htol
  · unfold Vector.normalized
    rw [if_pos hu]
  · unfold Vector.projectInPlane
    rw [if_pos hu]
  · unfold Vector.projectAlong
    rw [if_pos hu]

/-- Witness for C10 at the zero vector against `(1, 2, 3)`. -/
theorem compute_angle_with_zero_vector_witness :
    Vector.computeAngleWith ⟨0, 0, 0⟩ ⟨1, 2, 3⟩ = 0 ∧
    Vector.computeAngleWith ⟨1, 2, 3⟩ ⟨0, 0, 0⟩ = 0 ∧
    Vector.isParallelTo ⟨0, 0, 0⟩ ⟨1, 2, 3⟩ 1 ∧
    Vector.normalized ⟨0, 0, 0⟩ =
      .error "ValueError: Cannot normalize zero-length vector." ∧
    Vector.projectInPlane ⟨1, 2, 3⟩ ⟨0, 0, 0⟩ =
      .error "ValueError: Normal vector cannot be null." ∧
    Vector.projectAlong ⟨1, 2, 3⟩ ⟨0, 0, 0⟩ =
      .error "ValueError: Other vector cannot be null." :=
  compute_angle_with_zero_vector ⟨0, 0, 0⟩ ⟨1, 2, 3⟩ 1
    Vector.norm_zero (by norm_num)

/-- C7: the sine-rule decomposition satisfies
`component_1 + component_2 == axial_force` within `1e-6` (here: exactly, the
second component being defined as the difference), so the in-code assertion
never fires on inputs the axial phase accepts. -/
theorem axial_components_resum (a1 a2 F : Vector)
    (h1 : Real.sin (Real.pi - a1.computeAngleWith a2) ≠ 0)
    (h2 : a1.norm ≠ 0) :
    ((axialComponents a1 a2 F).1 + (axialComponents a1 a2 F).2 - F).norm
      < (1e-6 : ℝ) := by
  have hz : (axialComponents a1 a2 F).1 + (axialComponents a1 a2 F).2 - F
      = 0 := by
    simp only [axialComponents, Vector.smul_def, Vector.div_def,
      Vector.add_def, Vector.sub_def, Vector.zero_def, Vector.mk.injEq]
    refine ⟨by ring, by ring, by ring⟩
  rw [hz, Vector.norm_zero]
  norm_num

/-- Witness for C7 at concrete orthogonal axes and a generic force. -/
theorem axial_components_resum_witness :
    ((axialComponents ⟨1, 0, 0⟩ ⟨0, 1, 0⟩ ⟨1, 2, 3⟩).1 +
      (axialComponents ⟨1, 0, 0⟩ ⟨0, 1, 0⟩ ⟨1, 2, 3⟩).2 - ⟨1, 2, 3⟩).norm
      < (1e-6 : ℝ) :=
  axial_components_resum ⟨1, 0, 0⟩ ⟨0, 1, 0⟩ ⟨1, 2, 3⟩
    (by rw [sin_pi_sub_angle_e1_e2]; exact one_ne_zero)
    (by rw [norm_e1]; exact one_ne_zero)

/-- C3: when the net unit resisting moment (the sum of the sign-corrected
cross products, projected onto the unit moment direction) is exactly zero,
`compute_stress_field` fails: the stage after the per-face moment loop
returns the unmodified faces, a zero tensile total, and the
division-by-zero error. -/
theorem zero_resisting_moment_fails {S : Type} (K : Kernel S)
    (moment : Vector) (rotation_point : Point) (screw axial_force : Vector)
    (main_axes : List Vector) (unit_stresses : List ℝ)
    (faces : List (Face S)) (raw : Vector)
    (hm : moment.norm ≠ 0)
    (hraw : rawUnitMomentAux K moment rotation_point faces 0 = .ok raw)
    (h0 : raw.dot (moment / moment.norm) = 0) :
    computeStressFieldStage2 K moment rotation_point screw axial_force
      main_axes unit_stresses faces =
      ((faces, 0), some "ZeroDivisionError") := by
  unfold computeStressFieldStage2 momentAmplification
  rw [hraw]
  simp only [if_neg hm, if_pos h0]

/-- Witness for C3: a single face whose moment arm is parallel to its
normal, so its cross-product contribution (and hence the projected net
moment) is exactly zero. -/
theorem zero_resisting_moment_fails_witness :
    computeStressFieldStage2 KUnit ⟨0, 0, 1⟩ ⟨0, 0, 0⟩ ⟨0, 0, 1⟩ ⟨1, 0, 0⟩
      [] [] [faceC3] = (([faceC3], 0), some "ZeroDivisionError") := by
  have hm : (⟨0, 0, 1⟩ : Vector).norm ≠ 0 := by
    rw [show ((⟨0, 0, 1⟩ : Vector)).norm = Real.sqrt (0 ^ 2 + 0 ^ 2 + 1 ^ 2)
      from rfl]
    norm_num
  have hraw : rawUnitMomentAux KUnit ⟨0, 0, 1⟩ ⟨0, 0, 0⟩ [faceC3] 0 =
      .ok ⟨0, 0, 0⟩ := by
    simp [rawUnitMomentAux, faceC3, signedCross, faceStressVolume,
      volumeLambda, KUnit, Vector.cross]
  exact zero_resisting_moment_fails KUnit ⟨0, 0, 1⟩ ⟨0, 0, 0⟩ ⟨0, 0, 1⟩
    ⟨1, 0, 0⟩ [] [] [faceC3] ⟨0, 0, 0⟩ hm hraw (by norm_num)

/-- C9 counterexample: `Plane` construction from the non-orthogonal axes
`(1,0,0)` and `(1,1,0)` stores `z_axis = (0, 0, 1/sqrt 2)`, which is not
unit length, so `z_axis` is not the normalized cross product claimed. -/
theorem plane_z_axis_not_unit_cex :
    Plane.create ⟨0, 0, 0⟩ ⟨1, 0, 0⟩ ⟨1, 1, 0⟩ =
      .ok ⟨⟨0, 0, 0⟩, ⟨1, 0, 0⟩,
        ⟨1 / Real.sqrt 2, 1 / Real.sqrt 2, 0⟩,
        ⟨0, 0, 1 / Real.sqrt 2⟩⟩ ∧
    Vector.norm ⟨0, 0, 1 / Real.sqrt 2⟩ ≠ 1 := by
  have hx : (⟨1, 0, 0⟩ : Vector).norm = 1 := norm_e1
  have hy : (⟨1, 1, 0⟩ : Vector).norm = Real.sqrt 2 := by
    rw [show ((⟨1, 1, 0⟩ : Vector)).norm = Real.sqrt (1 ^ 2 + 1 ^ 2 + 0 ^ 2)
      from rfl]
    norm_num
  have h2 : Real.sqrt 2 ≠ 0 := by
    rw [Real.sqrt_ne_zero']; norm_num
  constructor
  · unfold Plane.create
    rw [if_neg (by rw [hx, hy]; push_neg; exact ⟨one_ne_zero, h2⟩)]
    rw [hx, hy]
    simp only [Vector.div_def, Vector.cross, Except.ok.injEq, Plane.mk.injEq,
      Vector.mk.injEq]
    norm_num
  · intro h
    have hsq := congrArg (fun t => t ^ 2) h
    simp only at hsq
    rw [Vector.norm_sq_eq_normSq] at hsq
    have : ((⟨0, 0, 1 / Real.sqrt 2⟩ : Vector)).normSq = 1 / 2 := by
      unfold Vector.normSq
      simp only
      rw [div_pow, one_pow, Real.sq_sqrt (by norm_num : (0:ℝ) ≤ 2)]
      norm_num
    rw [this] at hsq
    norm_num at hsq

/-- C9 amended: `x_axis` and `y_axis` are unit after construction and
`z_axis` is the plain (unnormalized) cross product of the stored axes; it is
unit length when the two stored axes are orthogonal, but not in general. -/
theorem plane_axes_amended (o : Point) (x y : Vector) (p : Plane)
    (h : Plane.create o x y = .ok p) :
    p.x_axis.norm = 1 ∧ p.y_axis.norm = 1 ∧
    p.z_axis = p.x_axis.cross p.y_axis ∧
    (p.x_axis.dot p.y_axis = 0 → p.z_axis.norm = 1) := by
  unfold Plane.create at h
  by_cases hc : x.norm = 0 ∨ y.norm = 0
  · rw [if_pos hc] at h
    cases h
  · rw [if_neg hc] at h
    push_neg at hc
    injection h with h
    subst h
    refine ⟨Vector.norm_normalize x hc.1, Vector.norm_normalize y hc.2,
      rfl, ?_⟩
    intro hdot
    have hxs : (x / x.norm).normSq = 1 := by
      have hh := Vector.norm_sq_eq_normSq (x / x.norm)
      rw [Vector.norm_normalize x hc.1] at hh
      linarith [hh]
    have hys : (y / y.norm).normSq = 1 := by
      have hh := Vector.norm_sq_eq_normSq (y / y.norm)
      rw [Vector.norm_normalize y hc.2] at hh
      linarith [hh]
    show Real.sqrt _ = 1
    rw [Vector.normSq_cross, hxs, hys, hdot]
    norm_num

/-- C5 counterexample: with two faces whose second normal has a nonnegative
dot with the unit force, the selection returns face index `0` — the loop
excludes index 0 as a candidate but its default answer is still face 0, so
the selected facing face is not always of index at least 1. -/
theorem facing_face_defaults_to_zero_cex :
    facingFaceId [⟨0, 0, 1⟩, ⟨1, 0, 0⟩] ⟨1, 0, 0⟩ = 0 := by
  have h1 : List.range' 1 (([⟨0, 0, 1⟩, ⟨1, 0, 0⟩] : List Vector).length - 1)
      = [1] := by simp
  unfold facingFaceId
  rw [h1]
  simp only [facingLoop]
  rw [if_neg (by simp [Vector.dot])]

/-- C5 amended: candidates range over indices `1 ≤ j < n` only; when some
candidate's normal has a negative dot with the unit force component, the
selected index is a candidate achieving the minimal dot; when no candidate
dot is negative, the selection falls back to face index `0`. -/
theorem facing_face_selection_amended (normals : List Vector) (uf : Vector) :
    ((∃ j, 1 ≤ j ∧ j < normals.length ∧ (normals.getD j 0).dot uf < 0) →
      1 ≤ facingFaceId normals uf ∧
      facingFaceId normals uf < normals.length ∧
      (∀ j, 1 ≤ j → j < normals.length →
        (normals.getD (facingFaceId normals uf) 0).dot uf ≤
          (normals.getD j 0).dot uf)) ∧
    ((∀ j, 1 ≤ j → j < normals.length →
        0 ≤ (normals.getD j 0).dot uf) →
      facingFaceId normals uf = 0) := by
  have hmem : ∀ j, j ∈ List.range' 1 (normals.length - 1) ↔
      1 ≤ j ∧ j < normals.length := by
    intro j
    rw [List.mem_range'_1]
    omega
  have hL : ∀ j ∈ List.range' 1 (normals.length - 1),
      1 ≤ j ∧ j < normals.length := fun j hj => (hmem j).mp hj
  have hspec := facingLoop_spec normals uf
    (List.range' 1 (normals.length - 1)) 0 0 le_rfl
    (fun h => absurd h (lt_irrefl 0)) (fun _ => rfl) hL
  have hfid : facingFaceId normals uf =
      (facingLoop normals uf (List.range' 1 (normals.length - 1)) (0, 0)).1 :=
    rfl
  constructor
  · rintro ⟨j, hj1, hjn, hjneg⟩
    have hjmem : j ∈ List.range' 1 (normals.length - 1) :=
      (hmem j).mpr ⟨hj1, hjn⟩
    have hr2 : (facingLoop normals uf
        (List.range' 1 (normals.length - 1)) (0, 0)).2 < 0 :=
      lt_of_le_of_lt (hspec.2.1 j hjmem) hjneg
    obtain ⟨ha, hb, hval⟩ := hspec.2.2.1 hr2
    rw [hfid]
    refine ⟨ha, hb, ?_⟩
    intro k hk1 hkn
    rw [hval]
    exact hspec.2.1 k ((hmem k).mpr ⟨hk1, hkn⟩)
  · intro hall
    rw [hfid]
    apply hspec.2.2.2
    rcases lt_or_eq_of_le hspec.1 with hlt | heq
    · obtain ⟨ha, hb, hval⟩ := hspec.2.2.1 hlt
      have hge := hall _ ha hb
      rw [hval] at hge
      linarith
    · exact heq

/-- Witness for the amended C5: a candidate with negative dot exists, so the
selected index is a minimizing candidate of index at least 1. -/
theorem facing_face_selection_amended_witness :
    1 ≤ facingFaceId [⟨0, 0, 1⟩, ⟨-1, 0, 0⟩] ⟨1, 0, 0⟩ ∧
    facingFaceId [⟨0, 0, 1⟩, ⟨-1, 0, 0⟩] ⟨1, 0, 0⟩ <
      ([⟨0, 0, 1⟩, ⟨-1, 0, 0⟩] : List Vector).length ∧
    (∀ j, 1 ≤ j → j < ([⟨0, 0, 1⟩, ⟨-1, 0, 0⟩] : List Vector).length →
      (([⟨0, 0, 1⟩, ⟨-1, 0, 0⟩] : List Vector).getD
        (facingFaceId [⟨0, 0, 1⟩, ⟨-1, 0, 0⟩] ⟨1, 0, 0⟩) 0).dot ⟨1, 0, 0⟩ ≤
        (([⟨0, 0, 1⟩, ⟨-1, 0, 0⟩] : List Vector).getD j 0).dot ⟨1, 0, 0⟩) :=
  (facing_face_selection_amended [⟨0, 0, 1⟩, ⟨-1, 0, 0⟩] ⟨1, 0, 0⟩).1
    ⟨1, le_rfl, by norm_num, by simp [Vector.dot]⟩

/-- Witness for the amended C9 at orthogonal inputs. -/
theorem plane_axes_amended_witness :
    Vector.norm ⟨1, 0, 0⟩ = 1 ∧ Vector.norm ⟨0, 1, 0⟩ = 1 ∧
    (⟨0, 0, 1⟩ : Vector) = Vector.cross ⟨1, 0, 0⟩ ⟨0, 1, 0⟩ ∧
    (Vector.dot ⟨1, 0, 0⟩ ⟨0, 1, 0⟩ = 0 → Vector.norm ⟨0, 0, 1⟩ = 1) := by
  have h2 : (⟨0, 1, 0⟩ : Vector).norm = 1 := by
    rw [show ((⟨0, 1, 0⟩ : Vector)).norm = Real.sqrt (0 ^ 2 + 1 ^ 2 + 0 ^ 2)
      from rfl]
    norm_num
  have h := plane_axes_amended ⟨0, 0, 0⟩ ⟨1, 0, 0⟩ ⟨0, 1, 0⟩
    ⟨⟨0, 0, 0⟩, ⟨1, 0, 0⟩, ⟨0, 1, 0⟩, ⟨0, 0, 1⟩⟩ ?_
  · exact h
  · unfold Plane.create
    rw [if_neg (by rw [norm_e1, h2]; push_neg
                   exact ⟨one_ne_zero, one_ne_zero⟩)]
    rw [norm_e1, h2]
    simp only [Vector.div_def, Vector.cross, Except.ok.injEq, Plane.mk.injEq,
      Vector.mk.injEq]
    norm_num

/-- C4: for a face with a stored cutting plane (whose prism pipeline and
first split succeed), if the second split yields zero fragments then
`create_stress_distribution` terminates normally with `is_stressed = false`
and both `stress_distribution` and `resultant_location` cleared; otherwise it
sets `is_stressed = true` and `stress_distribution` to the smallest-volume
fragment. -/
theorem create_stress_distribution_second_split {S : Type} (K : Kernel S)
    (f : Face S) (pl : Plane) (total s0 : S)
    (hpl : f.stress_face_plane = some pl)
    (hprism : Face.stressPrismTotal K f = some total)
    (hfirst : Face.minByVolume K (Face.firstSplitFrags K f pl total) =
      some s0) :
    (Face.secondSplitCands K f s0 = [] →
      Face.createStressDistribution K f =
        ({ f with is_stressed := false, stress_distribution := none,
                  resultant_location := none }, none)) ∧
    (Face.secondSplitCands K f s0 ≠ [] →
      (Face.createStressDistribution K f).1.is_stressed = true ∧
      (Face.createStressDistribution K f).1.stress_distribution =
        Face.minByVolume K (Face.secondSplitCands K f s0)) := by
  constructor
  · intro hempty
    have h0 : Face.minByVolume K (Face.secondSplitCands K f s0) = none := by
      rw [hempty]; rfl
    unfold Face.createStressDistribution
    rw [hpl, hprism]
    dsimp only
    rw [hfirst]
    dsimp only
    rw [h0]
  · intro hne
    obtain ⟨best, hbest⟩ := minByVolume_ne_nil K _ hne
    unfold Face.createStressDistribution
    rw [hpl, hprism]
    dsimp only
    rw [hfirst]
    dsimp only
    rw [hbest]
    dsimp only
    rcases hpts : K.curveBrepPoints (K.centroid best)
        (K.centroid best + f.normal) f.brep_surface with _ | ⟨p, ps⟩
    · exact ⟨rfl, rfl⟩
    · exact ⟨rfl, rfl⟩

/-- C6 counterexample: with main axes `(1,0,0)`, `(0,1,0)` and axial force
`(2,0,0)` exactly parallel to `main_axes[0]`, `component_2` is exactly the
zero vector and the axial phase raises `ZeroDivisionError` at the ratio test
(returning the faces untouched), instead of dropping `component_2` and
processing one facing/helping pair. -/
theorem axial_parallel_force_cex :
    (axialComponents ⟨1, 0, 0⟩ ⟨0, 1, 0⟩ ⟨2, 0, 0⟩).2 = 0 ∧
    computeAxialStresses KUnit ⟨0, 0, 1⟩ ⟨2, 0, 0⟩ [⟨1, 0, 0⟩, ⟨0, 1, 0⟩]
      [faceC1a, faceC1b] = ([faceC1a, faceC1b], some "ZeroDivisionError") :=
  axial_parallel_force_divzero_aux KUnit ⟨0, 0, 1⟩ ⟨1, 0, 0⟩ ⟨0, 1, 0⟩
    ⟨2, 0, 0⟩ [faceC1a, faceC1b] 2 two_ne_zero
    (by rw [norm_e1]; exact one_ne_zero)
    (by rw [sin_pi_sub_angle_e1_e2]; exact one_ne_zero)
    (by rw [norm_e1]; simp)

/-- C6 amended: when the axial force is exactly parallel to `main_axes[0]`
(`F = c * unit(main_axes[0])`, `c != 0`), the decomposition makes
`component_2` exactly zero, and the phase then fails with a
`ZeroDivisionError` at the `component_1.norm() / component_2.norm()` ratio
test rather than dropping the component; the drop-and-process-one-pair path
is taken only when the smaller component has nonzero norm and the ratio
exceeds 50. -/
theorem axial_parallel_force_divzero {S : Type} (K : Kernel S)
    (screw : Vector) (a1 a2 F : Vector) (faces : List (Face S)) (c : ℝ)
    (hc : c ≠ 0) (ha1 : a1.norm ≠ 0)
    (hsin : Real.sin (Real.pi - a1.computeAngleWith a2) ≠ 0)
    (hF : F = c • (a1 / a1.norm)) :
    (axialComponents a1 a2 F).2 = 0 ∧
    computeAxialStresses K screw F [a1, a2] faces =
      (faces, some "ZeroDivisionError") :=
  axial_parallel_force_divzero_aux K screw a1 a2 F faces c hc ha1 hsin hF

/-- Witness for the amended C6 at a concrete parallel force. -/
theorem axial_parallel_force_divzero_witness :
    (axialComponents ⟨1, 0, 0⟩ ⟨0, 1, 0⟩ ⟨4, 0, 0⟩).2 = 0 ∧
    computeAxialStresses KUnit ⟨0, 0, 1⟩ ⟨4, 0, 0⟩ [⟨1, 0, 0⟩, ⟨0, 1, 0⟩]
      [faceC1a] = ([faceC1a], some "ZeroDivisionError") :=
  axial_parallel_force_divzero KUnit ⟨0, 0, 1⟩ ⟨1, 0, 0⟩ ⟨0, 1, 0⟩
    ⟨4, 0, 0⟩ [faceC1a] 4 four_ne_zero
    (by rw [norm_e1]; exact one_ne_zero)
    (by rw [sin_pi_sub_angle_e1_e2]; exact one_ne_zero)
    (by rw [norm_e1]; simp)

/-- Witness for C4: a kernel in which the second split is empty, so the face
comes back unstressed and cleared, with no error. -/
theorem create_stress_distribution_second_split_witness :
    Face.createStressDistribution KNat4 faceC4 =
      ({ faceC4 with is_stressed := false, stress_distribution := none,
                     resultant_location := none }, none) :=
  (create_stress_distribution_second_split KNat4 faceC4 PL0 0 7
    rfl rfl rfl).1 rfl

/-- C8: when the axial phase completes normally and retains both decomposed
components (neither component's norm exceeds 50 times the other's, so both
facing/helping pairs are processed, the second one with temporarily negated
face normals), every face's normal at exit equals its value at entry: the
negation applied for the second component is undone before the stress
increments are written. -/
theorem axial_phase_restores_normals {S : Type} (K : Kernel S)
    (screw axial_force a1 a2 : Vector) (faces faces' : List (Face S))
    (hr1 : ¬((axialComponents a1 a2 axial_force).1.norm /
      (axialComponents a1 a2 axial_force).2.norm > 50))
    (hr2 : ¬((axialComponents a1 a2 axial_force).2.norm /
      (axialComponents a1 a2 axial_force).1.norm > 50))
    (hrun : computeAxialStresses K screw axial_force [a1, a2] faces =
      (faces', none)) :
    faces'.map (fun f => f.normal) = faces.map (fun f => f.normal) :=
  computeAxialStresses_normals K screw axial_force [a1, a2] faces faces' hrun

/-- Witness for C8 on the concrete 3-4-5 joint: both components are
retained, the run completes without error, and the exit normals equal the
entry normals. -/
theorem axial_phase_restores_normals_witness :
    (computeAxialStresses KNat8 ⟨0, 0, 1⟩ ⟨3, 4, 0⟩ [⟨1, 0, 0⟩, ⟨0, 1, 0⟩]
      [wf0, wf1]).1.map (fun f => f.normal) =
      ([wf0, wf1] : List (Face ℕ)).map (fun f => f.normal) := by
  have hb1 : ¬((axialComponents ⟨1, 0, 0⟩ ⟨0, 1, 0⟩ ⟨3, 4, 0⟩).1.norm /
      (axialComponents ⟨1, 0, 0⟩ ⟨0, 1, 0⟩ ⟨3, 4, 0⟩).2.norm > 50) := by
    rw [components_345]; dsimp only; rw [norm_300, norm_040]; norm_num
  have hb2 : ¬((axialComponents ⟨1, 0, 0⟩ ⟨0, 1, 0⟩ ⟨3, 4, 0⟩).2.norm /
      (axialComponents ⟨1, 0, 0⟩ ⟨0, 1, 0⟩ ⟨3, 4, 0⟩).1.norm > 50) := by
    rw [components_345]; dsimp only; rw [norm_300, norm_040]; norm_num
  have h := axial_phase_restores_normals KNat8 ⟨0, 0, 1⟩ ⟨3, 4, 0⟩
    ⟨1, 0, 0⟩ ⟨0, 1, 0⟩ [wf0, wf1] [wf0F, wf1M] hb1 hb2 run_eval
  rw [run_eval]
  exact h

end JointCalc
